import Mathlib

/-!
Shallow embedding of the stationary-logger core (business_logic crate):
the time-grid / ISO-8601 duration codec (timestamp.rs), the door tracker
(door.rs), the power-availability tracker (power_availability.rs) and the
temperature aggregator (temperature_aggregator.rs).

Modelling conventions:
* `u32`/`u16` machine integers are `Nat` together with explicit wrapping
  arithmetic (`wadd32`, `wsub32`, `wadd16`), the release-build semantics of
  Rust's `+`/`-` on unsigned integers.  Where the source can neither
  overflow nor underflow (e.g. `to_dhms`), plain `Nat` arithmetic is used,
  which then coincides with the machine arithmetic.
* `f32` temperature values are modelled as exact rationals (`ℚ`).  Every
  comparison performed by the embedded logic is against the constant
  thresholds `8.0`, `2.0`, `-0.5`, and each theorem below only evaluates
  those comparisons at inputs where the `f32` outcome and the `ℚ` outcome
  agree, so the control flow of the model matches the source.
* Rust `&mut self` methods returning `Result<(), TimestampError>` are
  modelled as functions `State → ... → State × Option TimestampError`,
  the returned state being the post-call value of `self` (unchanged when
  an error is returned, exactly as in the source).
* Rust `&str` values are modelled as `List Char`.
-/

namespace StationaryLogger

/-- 2^32, the modulus of `u32` arithmetic. -/
def U32M : Nat := 4294967296

/-- 2^16, the modulus of `u16` arithmetic. -/
def U16M : Nat := 65536

/-- Wrapping `u32` addition (operands assumed `< U32M`). -/
def wadd32 (a b : Nat) : Nat := (a + b) % U32M

/-- Wrapping `u32` subtraction (operands assumed `< U32M`). -/
def wsub32 (a b : Nat) : Nat := (a + U32M - b) % U32M

/-- Wrapping `u16` addition (operands assumed `< U16M`). -/
def wadd16 (a b : Nat) : Nat := (a + b) % U16M

/-- timestamp.rs: `SHORT_SAMPLE_PERIOD` (15 minutes in seconds). -/
def SHORT_SAMPLE_PERIOD : Nat := 900

/-- timestamp.rs: `LONG_SAMPLE_PERIOD` (8 hours in seconds). -/
def LONG_SAMPLE_PERIOD : Nat := 8 * 3600

/-- timestamp.rs: `Timestamp`, seconds since the epoch (`u32`). -/
structure Timestamp where
  seconds : Nat
deriving DecidableEq

/-- timestamp.rs: `Timestamp::to_dhms`.  All subtractions are of the form
`x - (x / k) * k` and cannot underflow, so plain `Nat` arithmetic agrees
with the `u32` arithmetic of the source. -/
def Timestamp.to_dhms (t : Timestamp) : Nat × Nat × Nat × Nat :=
  let days := t.seconds / 86400
  let seconds_of_day := t.seconds - days * 86400
  let hours := seconds_of_day / 3600
  let remaining_seconds := seconds_of_day - hours * 3600
  let minutes := remaining_seconds / 60
  (days, hours, minutes, remaining_seconds - minutes * 60)

/-- The character for a decimal digit `d < 10`. -/
def digitChar (d : Nat) : Char := Char.ofNat (48 + d)

/-- Digits of `n` (most significant first), with explicit fuel bounding the
recursion depth; `fuel ≥ n` renders all of `n`. -/
def natCharsAux : Nat → Nat → List Char
  | 0, _ => []
  | _ + 1, 0 => []
  | fuel + 1, n + 1 => natCharsAux fuel ((n + 1) / 10) ++ [digitChar ((n + 1) % 10)]

/-- Decimal rendering of a `Nat`, as produced by Rust's `write!("{}", n)`
for unsigned integers: no sign, no leading zeroes, `"0"` for zero. -/
def natChars (n : Nat) : List Char :=
  if n = 0 then ['0'] else natCharsAux n n

/-- timestamp.rs: `Timestamp::create_iso8601_str`. -/
def Timestamp.create_iso8601_str (t : Timestamp) : List Char :=
  let (days, hours, minutes, remaining_seconds) := t.to_dhms
  (if days > 0 then 'P' :: natChars days ++ ['D'] else ['P', '0', 'D']) ++
  (if hours > 0 ∨ minutes > 0 ∨ remaining_seconds > 0 then
    'T' :: natChars hours ++ 'H' :: natChars minutes ++ 'M' ::
      natChars remaining_seconds ++ ['S']
  else ['T', '0', 'S'])

/-- Rust `str::parse::<u32>()`: an optional leading `+`, then one or more
ascii digits; fails on an empty digit run, a non-digit character, or a
value that does not fit in `u32`. -/
def parseU32 (cs : List Char) : Option Nat :=
  let ds := match cs with
    | '+' :: rest => rest
    | _ => cs
  if ds.isEmpty then none
  else if ds.all Char.isDigit then
    let v := ds.foldl (fun a c => a * 10 + (c.toNat - 48)) 0
    if v < U32M then some v else none
  else none

/-- Rust `str::split_once(pat)` for a non-empty pattern: split at the first
occurrence of `sep`, returning the parts before and after it. -/
def splitOnceL (sep : List Char) : List Char → Option (List Char × List Char)
  | [] => none
  | c :: rest =>
    if sep.isPrefixOf (c :: rest) then some ([], (c :: rest).drop sep.length)
    else
      match splitOnceL sep rest with
      | some (pre, post) => some (c :: pre, post)
      | none => none

/-- Rust `str::strip_prefix(c)` for a single-character pattern. -/
def stripPrefixCh (c : Char) : List Char → Option (List Char)
  | [] => none
  | x :: rest => if x = c then some rest else none

/-- Rust `str::strip_suffix(c)` for a single-character pattern. -/
def stripSuffixCh (c : Char) (cs : List Char) : Option (List Char) :=
  match cs.reverse with
  | [] => none
  | x :: rest => if x = c then some rest.reverse else none

/-- timestamp.rs: `Timestamp::parse_duration`. -/
def Timestamp.parse_duration (input : List Char) : Option (Nat × Nat × Nat × Nat) :=
  if ['P', '0', 'D', 'T', '0', 'S'].isPrefixOf input then some (0, 0, 0, 0)
  else do
    let rest0 ← stripPrefixCh 'P' input
    let (days_str, rest1) ← splitOnceL ['D', 'T'] rest0
    let (hours_str, rest2) ← splitOnceL ['H'] rest1
    let (minutes_str, rest3) ← splitOnceL ['M'] rest2
    let seconds_str ← stripSuffixCh 'S' rest3
    let d ← parseU32 days_str
    let h ← parseU32 hours_str
    let m ← parseU32 minutes_str
    let s ← parseU32 seconds_str
    some (d, h, m, s)

/-- timestamp.rs: `Timestamp::get_last_short_sample_end`. -/
def Timestamp.get_last_short_sample_end (t : Timestamp) : Timestamp :=
  ⟨t.seconds / SHORT_SAMPLE_PERIOD * SHORT_SAMPLE_PERIOD⟩

/-- timestamp.rs: `Timestamp::get_last_long_sample_end`. -/
def Timestamp.get_last_long_sample_end (t : Timestamp) : Timestamp :=
  ⟨t.seconds / LONG_SAMPLE_PERIOD * LONG_SAMPLE_PERIOD⟩

/-- Modelled from the spec: the error type `TimestampError` is referenced
by door.rs, power_availability.rs and temperature_aggregator.rs but its
declaration is not among the provided sources; spec §7 describes it as the
single error kind raised when an incoming event or reset timestamp is
strictly less than the last timestamp accepted by a tracker. -/
inductive TimestampError where
  | OutOfOrder
deriving DecidableEq

/-- door.rs: `DOOR_ALARM_THRESHOLD` (5 minutes in seconds). -/
def DOOR_ALARM_THRESHOLD : Nat := 300

/-- door.rs: `DoorEvent`. -/
inductive DoorEvent where
  | Opened (ts : Timestamp)
  | Closed (ts : Timestamp)
deriving DecidableEq

/-- The timestamp carried by a door event. -/
def DoorEvent.ts : DoorEvent → Timestamp
  | .Opened t => t
  | .Closed t => t

/-- door.rs: `Door`.  `short_open_count`/`long_open_count` are `u16`,
the accumulators are `u32`. -/
structure Door where
  opened : Option Timestamp
  last_event_ts : Timestamp
  prev_short_sample_ended : Timestamp
  prev_long_sample_ended : Timestamp
  short_open_count : Nat
  short_open_accum : Nat
  long_open_count : Nat
  long_open_accum : Nat
  short_alarmed : Bool
  long_alarmed : Bool
deriving DecidableEq

/-- door.rs: `Door::default`. -/
def Door.default : Door :=
  { opened := none
    last_event_ts := ⟨0⟩
    prev_short_sample_ended := ⟨0⟩
    prev_long_sample_ended := ⟨0⟩
    short_open_count := 0
    short_open_accum := 0
    long_open_count := 0
    long_open_accum := 0
    short_alarmed := false
    long_alarmed := false }

/-- door.rs: `Door::new`. -/
def Door.new (open_ : Bool) (now : Timestamp) : Door :=
  { opened := if open_ then some now else none
    last_event_ts := now
    prev_short_sample_ended := now.get_last_short_sample_end
    prev_long_sample_ended := now.get_last_long_sample_end
    short_open_count := if open_ then 1 else 0
    short_open_accum := 0
    long_open_count := if open_ then 1 else 0
    long_open_accum := 0
    short_alarmed := false
    long_alarmed := false }

/-- door.rs: `Door::validate_timestamp_and_update`. -/
def Door.validate_timestamp_and_update (d : Door) (timestamp : Timestamp) :
    Door × Option TimestampError :=
  if timestamp.seconds < d.last_event_ts.seconds then (d, some .OutOfOrder)
  else ({ d with last_event_ts := timestamp }, none)

/-- door.rs: `Door::log_event`. -/
def Door.log_event (d : Door) (event : DoorEvent) : Door × Option TimestampError :=
  match d.validate_timestamp_and_update event.ts with
  | (_, some e) => (d, some e)
  | (d1, none) =>
    match event with
    | .Opened timestamp =>
      ({ d1 with
          opened := some timestamp
          short_open_count := wadd16 d1.short_open_count 1
          long_open_count := wadd16 d1.long_open_count 1 }, none)
    | .Closed timestamp =>
      match d1.opened with
      | some opened =>
        let duration := wsub32 timestamp.seconds opened.seconds
        ({ d1 with
            opened := none
            short_open_accum := wadd32 d1.short_open_accum duration
            long_open_accum := wadd32 d1.long_open_accum duration
            short_alarmed := decide (duration ≥ DOOR_ALARM_THRESHOLD)
            long_alarmed := decide (duration ≥ DOOR_ALARM_THRESHOLD) }, none)
      | none => (d1, none)

/-- door.rs: `Door::get_short_sample`. -/
def Door.get_short_sample (d : Door) (check_time : Timestamp) : Nat × Nat :=
  let presently_open_seconds :=
    match d.opened with
    | some opened =>
      if check_time.seconds < opened.seconds then 0
      else check_time.seconds - opened.seconds
    | none => 0
  (d.short_open_count, wadd32 d.short_open_accum presently_open_seconds)

/-- door.rs: `Door::get_long_sample`. -/
def Door.get_long_sample (d : Door) (check_time : Timestamp) : Nat × Nat :=
  let presently_open_seconds :=
    match d.opened with
    | some opened =>
      if check_time.seconds < opened.seconds then 0
      else check_time.seconds - opened.seconds
    | none => 0
  (d.long_open_count, wadd32 d.long_open_accum presently_open_seconds)

/-- door.rs: `Door::reset_short_sample`. -/
def Door.reset_short_sample (d : Door) (timestamp : Timestamp) :
    Door × Option TimestampError :=
  match d.validate_timestamp_and_update timestamp with
  | (_, some e) => (d, some e)
  | (d1, none) =>
    ({ d1 with
        prev_short_sample_ended := timestamp
        short_open_count := 0
        short_open_accum := 0
        short_alarmed := false }, none)

/-- door.rs: `Door::reset_long_sample`. -/
def Door.reset_long_sample (d : Door) (timestamp : Timestamp) :
    Door × Option TimestampError :=
  match d.validate_timestamp_and_update timestamp with
  | (_, some e) => (d, some e)
  | (d1, none) =>
    ({ d1 with
        prev_long_sample_ended := timestamp
        long_open_count := 0
        long_open_accum := 0
        long_alarmed := false }, none)

/-- door.rs: `Door::is_short_sample_alarmed`. -/
def Door.is_short_sample_alarmed (d : Door) (now : Timestamp) : Bool :=
  let open_long :=
    match d.opened with
    | some opened => decide (now.seconds > wadd32 opened.seconds DOOR_ALARM_THRESHOLD)
    | none => false
  d.short_alarmed || open_long

/-- door.rs: `Door::is_long_sample_alarmed`. -/
def Door.is_long_sample_alarmed (d : Door) (now : Timestamp) : Bool :=
  let open_long :=
    match d.opened with
    | some opened => decide (now.seconds > wadd32 opened.seconds DOOR_ALARM_THRESHOLD)
    | none => false
  d.long_alarmed || open_long

/-- door.rs: `Door::get_idrv`. -/
def Door.get_idrv (d : Door) (now : Timestamp) : Nat :=
  match d.opened with
  | some opened =>
    if now.seconds ≥ opened.seconds then now.seconds - opened.seconds else 0
  | none => 0

/-- power_availability.rs: `POWER_ALARM_THRESHOLD` (24 hours in seconds). -/
def POWER_ALARM_THRESHOLD : Nat := 86400

/-- power_availability.rs: `PowerEvent`. -/
inductive PowerEvent where
  | On (ts : Timestamp)
  | Off (ts : Timestamp)
deriving DecidableEq

/-- The timestamp carried by a power event. -/
def PowerEvent.ts : PowerEvent → Timestamp
  | .On t => t
  | .Off t => t

/-- power_availability.rs: `PowerAvailability`. -/
structure PowerAvailability where
  status : PowerEvent
  last_event_ts : Timestamp
  prev_short_sample_ended : Timestamp
  prev_long_sample_ended : Timestamp
  short_power_accum : Nat
  long_power_accum : Nat
  short_alarmed : Bool
  long_alarmed : Bool
deriving DecidableEq

/-- power_availability.rs: `PowerAvailability::default`. -/
def PowerAvailability.default : PowerAvailability :=
  { status := .Off ⟨0⟩
    last_event_ts := ⟨0⟩
    prev_short_sample_ended := ⟨0⟩
    prev_long_sample_ended := ⟨0⟩
    short_power_accum := 0
    long_power_accum := 0
    short_alarmed := false
    long_alarmed := false }

/-- power_availability.rs: `PowerAvailability::new`. -/
def PowerAvailability.new (on_ : Bool) (now : Timestamp) : PowerAvailability :=
  { status := if on_ then .On now else .Off now
    last_event_ts := now
    prev_short_sample_ended := now.get_last_short_sample_end
    prev_long_sample_ended := now.get_last_long_sample_end
    short_power_accum := 0
    long_power_accum := 0
    short_alarmed := false
    long_alarmed := false }

/-- power_availability.rs: `PowerAvailability::validate_timestamp_and_update`. -/
def PowerAvailability.validate_timestamp_and_update (p : PowerAvailability)
    (timestamp : Timestamp) : PowerAvailability × Option TimestampError :=
  if timestamp.seconds < p.last_event_ts.seconds then (p, some .OutOfOrder)
  else ({ p with last_event_ts := timestamp }, none)

/-- power_availability.rs: `PowerAvailability::log_event`. -/
def PowerAvailability.log_event (p : PowerAvailability) (event : PowerEvent) :
    PowerAvailability × Option TimestampError :=
  match p.validate_timestamp_and_update event.ts with
  | (_, some e) => (p, some e)
  | (p1, none) =>
    let p2 :=
      match event with
      | .On timestamp =>
        match p1.status with
        | .Off off =>
          let duration := wsub32 timestamp.seconds off.seconds
          { p1 with
              short_alarmed := decide (duration ≥ POWER_ALARM_THRESHOLD)
              long_alarmed := decide (duration ≥ POWER_ALARM_THRESHOLD) }
        | .On _ => p1
      | .Off timestamp =>
        match p1.status with
        | .On on_ts =>
          let duration := wsub32 timestamp.seconds on_ts.seconds
          { p1 with
              short_power_accum := wadd32 p1.short_power_accum duration
              long_power_accum := wadd32 p1.long_power_accum duration }
        | .Off _ => p1
    ({ p2 with status := event }, none)

/-- power_availability.rs: `PowerAvailability::get_short_sample`. -/
def PowerAvailability.get_short_sample (p : PowerAvailability)
    (check_time : Timestamp) : Nat :=
  let presently_on_seconds :=
    match p.status with
    | .On on_ts =>
      if check_time.seconds < on_ts.seconds then 0
      else check_time.seconds - on_ts.seconds
    | .Off _ => 0
  wadd32 p.short_power_accum presently_on_seconds

/-- power_availability.rs: `PowerAvailability::get_long_sample`. -/
def PowerAvailability.get_long_sample (p : PowerAvailability)
    (check_time : Timestamp) : Nat :=
  let presently_on_seconds :=
    match p.status with
    | .On on_ts =>
      if check_time.seconds < on_ts.seconds then 0
      else check_time.seconds - on_ts.seconds
    | .Off _ => 0
  wadd32 p.long_power_accum presently_on_seconds

/-- power_availability.rs: `PowerAvailability::reset_short_sample`. -/
def PowerAvailability.reset_short_sample (p : PowerAvailability)
    (timestamp : Timestamp) : PowerAvailability × Option TimestampError :=
  match p.validate_timestamp_and_update timestamp with
  | (_, some e) => (p, some e)
  | (p1, none) =>
    ({ p1 with
        prev_short_sample_ended := timestamp
        short_power_accum := 0
        short_alarmed := false }, none)

/-- power_availability.rs: `PowerAvailability::reset_long_sample`. -/
def PowerAvailability.reset_long_sample (p : PowerAvailability)
    (timestamp : Timestamp) : PowerAvailability × Option TimestampError :=
  match p.validate_timestamp_and_update timestamp with
  | (_, some e) => (p, some e)
  | (p1, none) =>
    ({ p1 with
        prev_long_sample_ended := timestamp
        long_power_accum := 0
        long_alarmed := false }, none)

/-- power_availability.rs: `PowerAvailability::is_short_sample_alarmed`. -/
def PowerAvailability.is_short_sample_alarmed (p : PowerAvailability)
    (now : Timestamp) : Bool :=
  let off_long :=
    match p.status with
    | .Off off => decide (now.seconds > wadd32 off.seconds POWER_ALARM_THRESHOLD)
    | .On _ => false
  p.short_alarmed || off_long

/-- power_availability.rs: `PowerAvailability::is_long_sample_alarmed`. -/
def PowerAvailability.is_long_sample_alarmed (p : PowerAvailability)
    (now : Timestamp) : Bool :=
  let off_long :=
    match p.status with
    | .Off off => decide (now.seconds > wadd32 off.seconds POWER_ALARM_THRESHOLD)
    | .On _ => false
  p.long_alarmed || off_long

/-- temperature_aggregator.rs: `MAX_GOOD_VACCINE_TEMP` (8.0 °C). -/
def MAX_GOOD_VACCINE_TEMP : ℚ := 8

/-- temperature_aggregator.rs: `MIN_GOOD_VACCINE_TEMP` (2.0 °C). -/
def MIN_GOOD_VACCINE_TEMP : ℚ := 2

/-- temperature_aggregator.rs: `ALARM_LOW_TEMPERATURE` (-0.5 °C). -/
def ALARM_LOW_TEMPERATURE : ℚ := -(1 / 2)

/-- temperature_aggregator.rs: `ALARM_HIGH_SECONDS` (10 hours). -/
def ALARM_HIGH_SECONDS : Nat := 10 * 60 * 60

/-- temperature_aggregator.rs: `ALARM_LOW_SECONDS` (1 hour). -/
def ALARM_LOW_SECONDS : Nat := 60 * 60

/-- temperature_aggregator.rs: `TemperatureSample` (independently optional
ambient and vaccine readings). -/
structure TemperatureSample where
  ambient : Option ℚ
  vaccine : Option ℚ
deriving DecidableEq

/-- temperature_aggregator.rs: `TempLongRecord`.  The `*_sum` fields are
`f32` (modelled as `ℚ`), all other fields are `u32`. -/
structure TempLongRecord where
  tvc_sum : ℚ
  tvc_seconds : Nat
  tvc_min : ℚ
  tvc_max : ℚ
  tamb_sum : ℚ
  tamb_seconds : Nat
  tvc_low_seconds : Nat
  tvc_high_seconds : Nat
  low_alarm_seconds : Nat
  high_alarm_seconds : Nat
deriving DecidableEq

/-- temperature_aggregator.rs: `TempLongRecord::default()` (all zeros). -/
def TempLongRecord.default : TempLongRecord :=
  { tvc_sum := 0, tvc_seconds := 0, tvc_min := 0, tvc_max := 0
    tamb_sum := 0, tamb_seconds := 0, tvc_low_seconds := 0
    tvc_high_seconds := 0, low_alarm_seconds := 0, high_alarm_seconds := 0 }

/-- temperature_aggregator.rs: `ColdTS`. -/
structure ColdTS where
  cool_start : Timestamp
  freeze_start : Timestamp
deriving DecidableEq

/-- temperature_aggregator.rs: `AlarmState`. -/
inductive AlarmState where
  | InRange
  | HotNoAlarm (start : Timestamp)
  | HotAlarm (start : Timestamp)
  | Cold (start : Timestamp)
  | FreezeNoAlarm (cold_ts : ColdTS)
  | FreezeAlarm (cold_ts : ColdTS)
deriving DecidableEq

/-- temperature_aggregator.rs: `TemperatureAggregator`. -/
structure TemperatureAggregator where
  status : AlarmState
  last_short_sample_ts : Timestamp
  prev_long_sample_ended : Timestamp
  last_ambient_temp : Option ℚ
  last_vaccine_temp : Option ℚ
  last_ambient_ts : Option Timestamp
  last_vaccine_ts : Option Timestamp
  low_alarm_start : Option Timestamp
  high_alarm_start : Option Timestamp
  long_record : TempLongRecord
deriving DecidableEq

/-- temperature_aggregator.rs: `TemperatureAggregator::new`. -/
def TemperatureAggregator.new (temps : TemperatureSample) (now : Timestamp) :
    TemperatureAggregator :=
  let last_short_sample_ts := now.get_last_short_sample_end
  let prev_long_sample_ended := now.get_last_long_sample_end
  let last_ambient_temp := temps.ambient
  let last_vaccine_temp := temps.vaccine
  let last_ambient_ts := last_ambient_temp.map fun _ => last_short_sample_ts
  let last_vaccine_ts := last_vaccine_temp.map fun _ => last_short_sample_ts
  let long_record :=
    match last_vaccine_temp with
    | some vaccine_temp =>
      { TempLongRecord.default with tvc_min := vaccine_temp, tvc_max := vaccine_temp }
    | none => TempLongRecord.default
  -- Room temperature (23 °C) is assumed when no vaccine reading is available,
  -- purely to pick the initial state.
  let tvc_value := last_vaccine_temp.getD 23
  let status :=
    if tvc_value > MAX_GOOD_VACCINE_TEMP then
      AlarmState.HotNoAlarm now
    else if tvc_value < MIN_GOOD_VACCINE_TEMP ∧ tvc_value > ALARM_LOW_TEMPERATURE then
      AlarmState.Cold now
    else
      AlarmState.FreezeNoAlarm ⟨now, now⟩
  { status, last_short_sample_ts, prev_long_sample_ended
    last_ambient_temp, last_vaccine_temp, last_ambient_ts, last_vaccine_ts
    low_alarm_start := none, high_alarm_start := none, long_record }

/-- temperature_aggregator.rs: `TemperatureAggregator::add_sample`.  The
source takes `&mut self` and returns `()` — it has no error path; the
leading `now.seconds - self.last_short_sample_ts.seconds` is an unchecked
`u32` subtraction (wrapping in release builds, a panic in debug builds),
modelled by `wsub32`. -/
def TemperatureAggregator.add_sample (self : TemperatureAggregator)
    (temps : TemperatureSample) (now : Timestamp) : TemperatureAggregator :=
  let ambient := temps.ambient
  let vaccine := temps.vaccine
  let time_delta := wsub32 now.seconds self.last_short_sample_ts.seconds
  -- Vaccine-channel integration, min/max, and range dwell.
  let lr0 := self.long_record
  let lr1 :=
    match self.last_vaccine_temp with
    | some prev_vaccine =>
      let avg_temp := (prev_vaccine + vaccine.getD prev_vaccine) / 2
      let lrA := { lr0 with
        tvc_sum := lr0.tvc_sum + avg_temp * (time_delta : ℚ)
        tvc_seconds := wadd32 lr0.tvc_seconds time_delta }
      let lrB :=
        match vaccine with
        | some current_vaccine =>
          if lrA.tvc_seconds = time_delta then
            { lrA with
                tvc_min := min prev_vaccine current_vaccine
                tvc_max := max prev_vaccine current_vaccine }
          else
            { lrA with
                tvc_min := min lrA.tvc_min current_vaccine
                tvc_max := max lrA.tvc_max current_vaccine }
        | none => lrA
      if prev_vaccine > MAX_GOOD_VACCINE_TEMP then
        { lrB with tvc_high_seconds := wadd32 lrB.tvc_high_seconds time_delta }
      else if prev_vaccine < MIN_GOOD_VACCINE_TEMP then
        { lrB with tvc_low_seconds := wadd32 lrB.tvc_low_seconds time_delta }
      else lrB
    | none =>
      match vaccine with
      | some current_vaccine =>
        { lr0 with tvc_min := current_vaccine, tvc_max := current_vaccine }
      | none => lr0
  -- Ambient-channel integration.
  let lr2 :=
    match self.last_ambient_temp with
    | some prev_ambient =>
      let current_ambient := ambient.getD prev_ambient
      let avg_temp := (prev_ambient + current_ambient) / 2
      { lr1 with
          tamb_sum := lr1.tamb_sum + avg_temp * (time_delta : ℚ)
          tamb_seconds := wadd32 lr1.tamb_seconds time_delta }
    | none => lr1
  -- Alarm dwell accumulation and persistence upgrade.
  let (status1, lr3, low_alarm_start1, high_alarm_start1) :=
    match self.status with
    | .HotAlarm _ =>
      (self.status,
        { lr2 with high_alarm_seconds := wadd32 lr2.high_alarm_seconds time_delta },
        self.low_alarm_start, self.high_alarm_start)
    | .FreezeAlarm _ =>
      (self.status,
        { lr2 with low_alarm_seconds := wadd32 lr2.low_alarm_seconds time_delta },
        self.low_alarm_start, self.high_alarm_start)
    | .HotNoAlarm hot_start =>
      if wsub32 now.seconds hot_start.seconds ≥ ALARM_HIGH_SECONDS then
        (.HotAlarm hot_start, lr2, self.low_alarm_start, some hot_start)
      else
        (self.status, lr2, self.low_alarm_start, self.high_alarm_start)
    | .FreezeNoAlarm cold_ts =>
      if wsub32 now.seconds cold_ts.freeze_start.seconds ≥ ALARM_LOW_SECONDS then
        (.FreezeAlarm cold_ts, lr2, some cold_ts.freeze_start, self.high_alarm_start)
      else
        (self.status, lr2, self.low_alarm_start, self.high_alarm_start)
    | _ => (self.status, lr2, self.low_alarm_start, self.high_alarm_start)
  -- State transition on the new vaccine reading (if present).
  let status2 :=
    match vaccine with
    | none => status1
    | some current_vaccine =>
      match status1 with
      | .HotAlarm hot_start | .HotNoAlarm hot_start =>
        if current_vaccine > MAX_GOOD_VACCINE_TEMP then
          if wsub32 now.seconds hot_start.seconds ≥ ALARM_HIGH_SECONDS then
            .HotAlarm hot_start
          else
            .HotNoAlarm hot_start
        else if current_vaccine < MIN_GOOD_VACCINE_TEMP then
          if current_vaccine ≤ ALARM_LOW_TEMPERATURE then
            .FreezeNoAlarm ⟨now, now⟩
          else
            .Cold now
        else .InRange
      | .FreezeAlarm cold_ts | .FreezeNoAlarm cold_ts =>
        if current_vaccine ≤ ALARM_LOW_TEMPERATURE then
          if wsub32 now.seconds cold_ts.freeze_start.seconds ≥ ALARM_LOW_SECONDS then
            .FreezeAlarm cold_ts
          else
            .FreezeNoAlarm cold_ts
        else if current_vaccine < MIN_GOOD_VACCINE_TEMP then
          .Cold cold_ts.cool_start
        else if current_vaccine > MAX_GOOD_VACCINE_TEMP then
          .HotNoAlarm now
        else .InRange
      | .Cold cool_start =>
        if current_vaccine ≤ ALARM_LOW_TEMPERATURE then
          .FreezeNoAlarm ⟨cool_start, now⟩
        else if current_vaccine < MIN_GOOD_VACCINE_TEMP then
          .Cold cool_start
        else if current_vaccine > MAX_GOOD_VACCINE_TEMP then
          .HotNoAlarm now
        else .InRange
      | .InRange =>
        if current_vaccine > MAX_GOOD_VACCINE_TEMP then
          .HotNoAlarm now
        else if current_vaccine < MIN_GOOD_VACCINE_TEMP then
          if current_vaccine ≤ ALARM_LOW_TEMPERATURE then
            .FreezeNoAlarm ⟨now, now⟩
          else
            .Cold now
        else .InRange
  -- Update the last-sample bookkeeping.
  { self with
      status := status2
      long_record := lr3
      low_alarm_start := low_alarm_start1
      high_alarm_start := high_alarm_start1
      last_short_sample_ts := now
      last_ambient_temp := match ambient with
        | some new_ambient => some new_ambient
        | none => self.last_ambient_temp
      last_ambient_ts := match ambient with
        | some _ => some now
        | none => self.last_ambient_ts
      last_vaccine_temp := match vaccine with
        | some new_vaccine => some new_vaccine
        | none => self.last_vaccine_temp
      last_vaccine_ts := match vaccine with
        | some _ => some now
        | none => self.last_vaccine_ts }

/-- temperature_aggregator.rs: `TemperatureAggregator::is_low_alarm`. -/
def TemperatureAggregator.is_low_alarm (self : TemperatureAggregator) : Bool :=
  match self.status with
  | .FreezeAlarm _ => true
  | _ => false

/-- temperature_aggregator.rs: `TemperatureAggregator::is_high_alarm`. -/
def TemperatureAggregator.is_high_alarm (self : TemperatureAggregator) : Bool :=
  match self.status with
  | .HotAlarm _ => true
  | _ => false

/-- temperature_aggregator.rs: `TemperatureAggregator::finalize_long_record`,
returning the snapshot together with the updated aggregator. -/
def TemperatureAggregator.finalize_long_record (self : TemperatureAggregator) :
    TempLongRecord × TemperatureAggregator :=
  (self.long_record,
    { self with
        long_record := TempLongRecord.default
        prev_long_sample_ended := self.last_short_sample_ts })

/-- Deliver a list of door events in order, stopping at the first rejected
event (the dispatcher unwraps each `Result`). -/
def Door.log_events (d : Door) : List DoorEvent → Option Door
  | [] => some d
  | e :: es =>
    match d.log_event e with
    | (d1, none) => d1.log_events es
    | (_, some _) => none

/-- Written from the spec's words, for comparison with `Door.log_event`:
the sum of `close_ts - open_ts` over all completed openings of an event
sequence — each `Closed` event that finds the door open contributes the
time since the most recent `Opened` timestamp (`opened` is the door-open
timestamp carried into the sequence). -/
def completedOpenSum (opened : Option Timestamp) : List DoorEvent → Nat
  | [] => 0
  | .Opened t :: es => completedOpenSum (some t) es
  | .Closed t :: es =>
    match opened with
    | some o => (t.seconds - o.seconds) + completedOpenSum none es
    | none => completedOpenSum none es

/-- The seconds of the current in-progress opening up to the door's last
accepted timestamp (0 when closed). -/
def Door.openSpan (d : Door) : Nat :=
  match d.opened with
  | some o => d.last_event_ts.seconds - o.seconds
  | none => 0

/-- The vaccine-channel observables of a `TemperatureAggregator`: every
field except the ambient-channel ones (`last_ambient_temp`,
`last_ambient_ts`, `tamb_sum`, `tamb_seconds`).  `add_sample` reads none
of the ambient fields while computing these, so two aggregators agreeing
on this projection stay in agreement whatever ambient readings they see. -/
def TemperatureAggregator.vaccineCore (a : TemperatureAggregator) :=
  (a.status, a.last_short_sample_ts, a.prev_long_sample_ended,
    a.last_vaccine_temp, a.last_vaccine_ts, a.low_alarm_start, a.high_alarm_start,
    a.long_record.tvc_sum, a.long_record.tvc_seconds,
    a.long_record.tvc_min, a.long_record.tvc_max,
    a.long_record.tvc_low_seconds, a.long_record.tvc_high_seconds,
    a.long_record.low_alarm_seconds, a.long_record.high_alarm_seconds)

/-- Scenario B run (spec §8 / claim C3): construct at `t = 0` with vaccine
4.0 °C and the given optional ambient reading, then deliver `n` samples
with vaccine 8.01 °C and ambient present (`amb k` at the `k`-th step) at
`t = 900, 1800, …, 900 * n`. -/
def scenarioHotRun (amb0 : Option ℚ) (amb : Nat → ℚ) (n : Nat) :
    TemperatureAggregator :=
  (List.range n).foldl
    (fun a k => a.add_sample ⟨some (amb k), some (801 / 100)⟩ ⟨900 * (k + 1)⟩)
    (TemperatureAggregator.new ⟨amb0, some 4⟩ ⟨0⟩)

/-- Closed form of the vaccine-channel observables along Scenario B: the
aggregator state reached after `k` samples of 8.01 degC delivered at
t = 900, ..., 900 k, starting from vaccine 4.0 degC at t = 0 (the ambient
fields, which the scenario never inspects, are pinned to `none`/0). -/
def scenarioState : Nat → TemperatureAggregator
  | 0 => TemperatureAggregator.new ⟨none, some 4⟩ ⟨0⟩
  | k + 1 =>
    { status := if k + 1 < 41 then .HotNoAlarm ⟨900⟩ else .HotAlarm ⟨900⟩
      last_short_sample_ts := ⟨900 * (k + 1)⟩
      prev_long_sample_ended := ⟨0⟩
      last_ambient_temp := none
      last_vaccine_temp := some (801 / 100)
      last_ambient_ts := none
      last_vaccine_ts := some ⟨900 * (k + 1)⟩
      low_alarm_start := none
      high_alarm_start := if 41 ≤ k + 1 then some ⟨900⟩ else none
      long_record :=
        { tvc_sum := (4 + 801 / 100) / 2 * 900 + 801 / 100 * ((900 * k : ℕ) : ℚ)
          tvc_seconds := 900 * (k + 1)
          tvc_min := 4
          tvc_max := 801 / 100
          tamb_sum := 0
          tamb_seconds := 0
          tvc_low_seconds := 0
          tvc_high_seconds := 900 * k
          low_alarm_seconds := 0
          high_alarm_seconds := if 42 ≤ k + 1 then 900 * (k + 1) - 36900 else 0 } }

section ArithmeticLemmas

/-- When no underflow occurs and the minuend fits in `u32`, wrapping
subtraction is plain subtraction. -/
theorem wsub32_eq_sub {a b : Nat} (hba : b ≤ a) (ha : a < U32M) :
    wsub32 a b = a - b := by
  unfold wsub32 U32M
  unfold U32M at ha
  omega

/-- When no overflow occurs, wrapping `u32` addition is plain addition. -/
theorem wadd32_eq_add {a b : Nat} (h : a + b < U32M) : wadd32 a b = a + b := by
  unfold wadd32 U32M
  unfold U32M at h
  omega

/-- When no overflow occurs, wrapping `u16` addition is plain addition. -/
theorem wadd16_eq_add {a b : Nat} (h : a + b < U16M) : wadd16 a b = a + b := by
  unfold wadd16 U16M
  unfold U16M at h
  omega

/-- A non-overflowing wrapping addition does not decrease its argument. -/
theorem le_wadd32 {a b : Nat} (h : a + b < U32M) : a ≤ wadd32 a b := by
  rw [wadd32_eq_add h]; omega

end ArithmeticLemmas

/-- C5: `finalize_long_record()` returns exactly the long record
accumulated so far, leaves the stored long record equal to the all-zeros
default, sets the long-window boundary `prev_long_sample_ended` to the
last processed sample timestamp, and leaves everything else — the
`AlarmState` variant with its embedded start timestamps and the
last-temperature/last-timestamp fields — unchanged. -/
theorem finalize_long_record_frame (a : TemperatureAggregator) :
    a.finalize_long_record.1 = a.long_record ∧
    a.finalize_long_record.2.long_record = TempLongRecord.default ∧
    a.finalize_long_record.2.prev_long_sample_ended = a.last_short_sample_ts ∧
    a.finalize_long_record.2.status = a.status ∧
    a.finalize_long_record.2.last_short_sample_ts = a.last_short_sample_ts ∧
    a.finalize_long_record.2.last_ambient_temp = a.last_ambient_temp ∧
    a.finalize_long_record.2.last_vaccine_temp = a.last_vaccine_temp ∧
    a.finalize_long_record.2.last_ambient_ts = a.last_ambient_ts ∧
    a.finalize_long_record.2.last_vaccine_ts = a.last_vaccine_ts ∧
    a.finalize_long_record.2.low_alarm_start = a.low_alarm_start ∧
    a.finalize_long_record.2.high_alarm_start = a.high_alarm_start := by
  simp [TemperatureAggregator.finalize_long_record]

/-- C4 counterexample: with power off since `t = 0` and no stored alarm,
both live checks return `false` at `now = 86400` even though
`now - off_start = 86400 ≥ 86400` (the source compares with a strict
`now > off_start + 86400`). -/
theorem power_alarm_boundary_counterexample :
    (PowerAvailability.new false ⟨0⟩).status = .Off ⟨0⟩ ∧
    86400 - 0 ≥ 86400 ∧
    (PowerAvailability.new false ⟨0⟩).is_short_sample_alarmed ⟨86400⟩ = false ∧
    (PowerAvailability.new false ⟨0⟩).is_long_sample_alarmed ⟨86400⟩ = false := by
  decide

/-- C4 (amended): for every `PowerAvailability` state whose status is
`Off(off_start)`, `is_short_sample_alarmed(now)` and
`is_long_sample_alarmed(now)` return `true` whenever `now - off_start` is
strictly greater than 86400 seconds, even before any compensating `On`
event has been logged. -/
theorem power_live_alarm_when_off_past_threshold (p : PowerAvailability)
    (off now : Timestamp) (hs : p.status = .Off off)
    (hgt : off.seconds + POWER_ALARM_THRESHOLD < now.seconds)
    (hnow : now.seconds < U32M) :
    p.is_short_sample_alarmed now = true ∧ p.is_long_sample_alarmed now = true := by
  have hadd : off.seconds + POWER_ALARM_THRESHOLD < U32M := lt_trans hgt hnow
  constructor <;>
    simp [PowerAvailability.is_short_sample_alarmed,
      PowerAvailability.is_long_sample_alarmed, hs, wadd32_eq_add hadd, hgt]

/-- Witness for the amended C4 theorem, at `off_start = 0`, `now = 86401`. -/
theorem power_live_alarm_when_off_past_threshold_witness :
    (PowerAvailability.new false ⟨0⟩).is_short_sample_alarmed ⟨86401⟩ = true ∧
    (PowerAvailability.new false ⟨0⟩).is_long_sample_alarmed ⟨86401⟩ = true :=
  power_live_alarm_when_off_past_threshold (PowerAvailability.new false ⟨0⟩)
    ⟨0⟩ ⟨86401⟩ (by decide) (by decide) (by decide)

/-- C2: `TemperatureAggregator::add_sample` performs no timestamp
validation.  At the failing input — an aggregator whose last sample
timestamp is 900, given a sample at `now = 0` — the call is not rejected
(the function has no error path), the state is changed, and the unchecked
`u32` time delta `0 - 900` wraps to 4294966396, which is added to
`tvc_seconds`. -/
theorem add_sample_regression_not_rejected :
    ((TemperatureAggregator.new ⟨some 25, some 4⟩ ⟨900⟩).add_sample
        ⟨some 25, some 4⟩ ⟨0⟩).long_record.tvc_seconds = 4294966396 ∧
    ((TemperatureAggregator.new ⟨some 25, some 4⟩ ⟨900⟩).add_sample
        ⟨some 25, some 4⟩ ⟨0⟩) ≠ TemperatureAggregator.new ⟨some 25, some 4⟩ ⟨900⟩ ∧
    (0 : Nat) < (TemperatureAggregator.new
        ⟨some 25, some 4⟩ ⟨900⟩).last_short_sample_ts.seconds := by
  have hsec :
      ((TemperatureAggregator.new ⟨some 25, some 4⟩ ⟨900⟩).add_sample
          ⟨some 25, some 4⟩ ⟨0⟩).long_record.tvc_seconds = 4294966396 := by
    norm_num [TemperatureAggregator.new, TemperatureAggregator.add_sample,
      Timestamp.get_last_short_sample_end, Timestamp.get_last_long_sample_end,
      SHORT_SAMPLE_PERIOD, LONG_SAMPLE_PERIOD, TempLongRecord.default,
      wadd32, wsub32, U32M, MAX_GOOD_VACCINE_TEMP, MIN_GOOD_VACCINE_TEMP,
      ALARM_LOW_TEMPERATURE, ALARM_HIGH_SECONDS, ALARM_LOW_SECONDS]
  refine ⟨hsec, fun h => ?_, by decide⟩
  have h0 :
      (TemperatureAggregator.new
          ⟨some 25, some 4⟩ ⟨900⟩).long_record.tvc_seconds = 0 := by
    norm_num [TemperatureAggregator.new, Timestamp.get_last_short_sample_end,
      Timestamp.get_last_long_sample_end, SHORT_SAMPLE_PERIOD,
      LONG_SAMPLE_PERIOD, TempLongRecord.default]
  rw [h] at hsec
  rw [h0] at hsec
  exact absurd hsec (by decide)

/-- C8 counterexample: a successful, in-order `add_sample` at a vaccine
temperature of −1 °C strictly decreases the accumulator field `tvc_sum`
(from 0 to −900) with no intervening finalize or reset. -/
theorem tvc_sum_decreases_counterexample :
    ((TemperatureAggregator.new ⟨none, some (-1)⟩ ⟨0⟩).add_sample
        ⟨none, some (-1)⟩ ⟨900⟩).long_record.tvc_sum
      < (TemperatureAggregator.new ⟨none, some (-1)⟩ ⟨0⟩).long_record.tvc_sum ∧
    (TemperatureAggregator.new
        ⟨none, some (-1)⟩ ⟨0⟩).last_short_sample_ts.seconds ≤ 900 := by
  constructor
  · norm_num [TemperatureAggregator.new, TemperatureAggregator.add_sample,
      Timestamp.get_last_short_sample_end, Timestamp.get_last_long_sample_end,
      SHORT_SAMPLE_PERIOD, LONG_SAMPLE_PERIOD, TempLongRecord.default,
      wadd32, wsub32, U32M, MAX_GOOD_VACCINE_TEMP, MIN_GOOD_VACCINE_TEMP,
      ALARM_LOW_TEMPERATURE, ALARM_HIGH_SECONDS, ALARM_LOW_SECONDS]
  · decide

/-- Helper for C8: every `u32` counter field of the in-progress
`TempLongRecord` is non-decreasing across an in-order `add_sample` call
whose additions do not overflow `u32`. -/
theorem add_sample_counters_mono (a : TemperatureAggregator)
    (s : TemperatureSample) (now : Timestamp)
    (hlast : a.last_short_sample_ts.seconds ≤ now.seconds)
    (hnow : now.seconds < U32M)
    (h1 : a.long_record.tvc_seconds + now.seconds < U32M)
    (h2 : a.long_record.tamb_seconds + now.seconds < U32M)
    (h3 : a.long_record.tvc_low_seconds + now.seconds < U32M)
    (h4 : a.long_record.tvc_high_seconds + now.seconds < U32M)
    (h5 : a.long_record.low_alarm_seconds + now.seconds < U32M)
    (h6 : a.long_record.high_alarm_seconds + now.seconds < U32M) :
    a.long_record.tvc_seconds ≤ (a.add_sample s now).long_record.tvc_seconds ∧
    a.long_record.tamb_seconds ≤ (a.add_sample s now).long_record.tamb_seconds ∧
    a.long_record.tvc_low_seconds ≤ (a.add_sample s now).long_record.tvc_low_seconds ∧
    a.long_record.tvc_high_seconds ≤ (a.add_sample s now).long_record.tvc_high_seconds ∧
    a.long_record.low_alarm_seconds ≤ (a.add_sample s now).long_record.low_alarm_seconds ∧
    a.long_record.high_alarm_seconds ≤ (a.add_sample s now).long_record.high_alarm_seconds := by
  have hδ : wsub32 now.seconds a.last_short_sample_ts.seconds ≤ now.seconds := by
    rw [wsub32_eq_sub hlast hnow]; omega
  rcases hv : a.last_vaccine_temp with _ | pv <;>
  rcases hw : s.vaccine with _ | cv <;>
  rcases ha : a.last_ambient_temp with _ | pa <;>
  rcases hs : a.status with _ | st | st | st | cts | cts <;>
    simp only [TemperatureAggregator.add_sample, hv, hw, ha, hs] <;>
    (try split_ifs) <;>
    refine ⟨?_, ?_, ?_, ?_, ?_, ?_⟩ <;>
    first
      | rfl
      | exact le_wadd32 (by omega)

/-- Helper for C8: a successful `Door::log_event` whose arithmetic does not
overflow leaves both accumulators and both open counts non-decreasing. -/
theorem door_log_event_mono (d : Door) (e : DoorEvent)
    (hts : d.last_event_ts.seconds ≤ e.ts.seconds)
    (hopen : ∀ o, d.opened = some o → o.seconds ≤ e.ts.seconds)
    (hbound : e.ts.seconds < U32M)
    (hs : d.short_open_accum + e.ts.seconds < U32M)
    (hl : d.long_open_accum + e.ts.seconds < U32M)
    (hcs : d.short_open_count + 1 < U16M)
    (hcl : d.long_open_count + 1 < U16M) :
    (d.log_event e).2 = none ∧
    d.short_open_accum ≤ (d.log_event e).1.short_open_accum ∧
    d.long_open_accum ≤ (d.log_event e).1.long_open_accum ∧
    d.short_open_count ≤ (d.log_event e).1.short_open_count ∧
    d.long_open_count ≤ (d.log_event e).1.long_open_count := by
  rcases e with t | t <;>
    simp only [DoorEvent.ts] at hts hopen hbound hs hl <;>
    rcases ho : d.opened with _ | o <;>
    simp only [Door.log_event, Door.validate_timestamp_and_update, DoorEvent.ts,
      if_neg (Nat.not_lt.mpr hts), ho] <;>
    refine ⟨by trivial, ?_, ?_, ?_, ?_⟩ <;>
    first
      | rfl
      | (rw [wadd16_eq_add (by omega)]; omega)
      | (have hole := hopen o ho
         rw [wsub32_eq_sub hole hbound, wadd32_eq_add (by omega)]; omega)

/-- Helper for C8: a successful `PowerAvailability::log_event` whose
arithmetic does not overflow leaves both dwell accumulators
non-decreasing. -/
theorem power_log_event_mono (p : PowerAvailability) (e : PowerEvent)
    (hts : p.last_event_ts.seconds ≤ e.ts.seconds)
    (hstat : ∀ t, p.status = .On t → t.seconds ≤ e.ts.seconds)
    (hbound : e.ts.seconds < U32M)
    (hs : p.short_power_accum + e.ts.seconds < U32M)
    (hl : p.long_power_accum + e.ts.seconds < U32M) :
    (p.log_event e).2 = none ∧
    p.short_power_accum ≤ (p.log_event e).1.short_power_accum ∧
    p.long_power_accum ≤ (p.log_event e).1.long_power_accum := by
  rcases e with t | t <;>
    simp only [PowerEvent.ts] at hts hstat hbound hs hl <;>
    rcases hp : p.status with t0 | t0 <;>
    simp only [PowerAvailability.log_event, PowerAvailability.validate_timestamp_and_update,
      PowerEvent.ts, if_neg (Nat.not_lt.mpr hts), hp] <;>
    refine ⟨by trivial, ?_, ?_⟩ <;>
    first
      | rfl
      | (have hole := hstat t0 hp
         rw [wsub32_eq_sub hole hbound, wadd32_eq_add (by omega)]; omega)

/-- C8 (amended): between two consecutive finalize/reset calls every
`u32`/`u16` counter field is non-decreasing across a successful in-order
update whose additions do not overflow — all six `u32` second-counters of
the in-progress `TempLongRecord` under `add_sample`, and the door/power
accumulator and count fields under `log_event`.  (The `f32` fields
`tvc_sum` and `tamb_sum` are excluded: they decrease whenever the
integrated temperature is negative, as the counterexample shows.) -/
theorem counter_fields_nondecreasing :
    (∀ (a : TemperatureAggregator) (s : TemperatureSample) (now : Timestamp),
      a.last_short_sample_ts.seconds ≤ now.seconds → now.seconds < U32M →
      a.long_record.tvc_seconds + now.seconds < U32M →
      a.long_record.tamb_seconds + now.seconds < U32M →
      a.long_record.tvc_low_seconds + now.seconds < U32M →
      a.long_record.tvc_high_seconds + now.seconds < U32M →
      a.long_record.low_alarm_seconds + now.seconds < U32M →
      a.long_record.high_alarm_seconds + now.seconds < U32M →
      a.long_record.tvc_seconds ≤ (a.add_sample s now).long_record.tvc_seconds ∧
      a.long_record.tamb_seconds ≤ (a.add_sample s now).long_record.tamb_seconds ∧
      a.long_record.tvc_low_seconds ≤ (a.add_sample s now).long_record.tvc_low_seconds ∧
      a.long_record.tvc_high_seconds ≤ (a.add_sample s now).long_record.tvc_high_seconds ∧
      a.long_record.low_alarm_seconds ≤ (a.add_sample s now).long_record.low_alarm_seconds ∧
      a.long_record.high_alarm_seconds ≤ (a.add_sample s now).long_record.high_alarm_seconds) ∧
    (∀ (d : Door) (e : DoorEvent),
      d.last_event_ts.seconds ≤ e.ts.seconds →
      (∀ o, d.opened = some o → o.seconds ≤ e.ts.seconds) →
      e.ts.seconds < U32M →
      d.short_open_accum + e.ts.seconds < U32M →
      d.long_open_accum + e.ts.seconds < U32M →
      d.short_open_count + 1 < U16M →
      d.long_open_count + 1 < U16M →
      (d.log_event e).2 = none ∧
      d.short_open_accum ≤ (d.log_event e).1.short_open_accum ∧
      d.long_open_accum ≤ (d.log_event e).1.long_open_accum ∧
      d.short_open_count ≤ (d.log_event e).1.short_open_count ∧
      d.long_open_count ≤ (d.log_event e).1.long_open_count) ∧
    (∀ (p : PowerAvailability) (e : PowerEvent),
      p.last_event_ts.seconds ≤ e.ts.seconds →
      (∀ t, p.status = .On t → t.seconds ≤ e.ts.seconds) →
      e.ts.seconds < U32M →
      p.short_power_accum + e.ts.seconds < U32M →
      p.long_power_accum + e.ts.seconds < U32M →
      (p.log_event e).2 = none ∧
      p.short_power_accum ≤ (p.log_event e).1.short_power_accum ∧
      p.long_power_accum ≤ (p.log_event e).1.long_power_accum) :=
  ⟨fun a s now h0 h00 h1 h2 h3 h4 h5 h6 =>
      add_sample_counters_mono a s now h0 h00 h1 h2 h3 h4 h5 h6,
    fun d e h1 h2 h3 h4 h5 h6 h7 => door_log_event_mono d e h1 h2 h3 h4 h5 h6 h7,
    fun p e h1 h2 h3 h4 h5 => power_log_event_mono p e h1 h2 h3 h4 h5⟩

/-- Witness for the amended C8 theorem at concrete in-range inputs. -/
theorem counter_fields_nondecreasing_witness :
    ((TemperatureAggregator.new ⟨none, some 4⟩ ⟨0⟩).long_record.tvc_seconds ≤
      ((TemperatureAggregator.new ⟨none, some 4⟩ ⟨0⟩).add_sample
        ⟨none, some 4⟩ ⟨900⟩).long_record.tvc_seconds) ∧
    ((Door.new false ⟨0⟩).log_event (.Opened ⟨100⟩)).2 = none ∧
    ((Door.new false ⟨0⟩).short_open_count ≤
      ((Door.new false ⟨0⟩).log_event (.Opened ⟨100⟩)).1.short_open_count) ∧
    ((PowerAvailability.new true ⟨0⟩).log_event (.Off ⟨100⟩)).2 = none ∧
    ((PowerAvailability.new true ⟨0⟩).short_power_accum ≤
      ((PowerAvailability.new true ⟨0⟩).log_event (.Off ⟨100⟩)).1.short_power_accum) := by
  have ht := counter_fields_nondecreasing.1 (TemperatureAggregator.new ⟨none, some 4⟩ ⟨0⟩)
    ⟨none, some 4⟩ ⟨900⟩ (by decide) (by decide) (by decide) (by decide)
    (by decide) (by decide) (by decide) (by decide)
  have hd := counter_fields_nondecreasing.2.1 (Door.new false ⟨0⟩) (.Opened ⟨100⟩)
    (by decide) (fun o ho => by simp [Door.new] at ho) (by decide) (by decide)
    (by decide) (by decide) (by decide)
  have hp := counter_fields_nondecreasing.2.2 (PowerAvailability.new true ⟨0⟩)
    (.Off ⟨100⟩) (by decide)
    (fun t ht => by
      have h0 : PowerEvent.On (⟨0⟩ : Timestamp) = PowerEvent.On t := ht
      cases h0
      decide)
    (by decide) (by decide) (by decide)
  exact ⟨ht.1, hd.1, hd.2.2.2.1, hp.1, hp.2.1⟩

/-- C7: every `Door` or `PowerAvailability` mutation — `log_event`,
`reset_short_sample`, `reset_long_sample` — whose timestamp is strictly
less than the tracker's last accepted timestamp returns the out-of-order
timestamp error and returns the state completely unmodified. -/
theorem out_of_order_rejected :
    (∀ (d : Door) (e : DoorEvent), e.ts.seconds < d.last_event_ts.seconds →
      d.log_event e = (d, some .OutOfOrder)) ∧
    (∀ (d : Door) (t : Timestamp), t.seconds < d.last_event_ts.seconds →
      d.reset_short_sample t = (d, some .OutOfOrder)) ∧
    (∀ (d : Door) (t : Timestamp), t.seconds < d.last_event_ts.seconds →
      d.reset_long_sample t = (d, some .OutOfOrder)) ∧
    (∀ (p : PowerAvailability) (e : PowerEvent), e.ts.seconds < p.last_event_ts.seconds →
      p.log_event e = (p, some .OutOfOrder)) ∧
    (∀ (p : PowerAvailability) (t : Timestamp), t.seconds < p.last_event_ts.seconds →
      p.reset_short_sample t = (p, some .OutOfOrder)) ∧
    (∀ (p : PowerAvailability) (t : Timestamp), t.seconds < p.last_event_ts.seconds →
      p.reset_long_sample t = (p, some .OutOfOrder)) := by
  refine ⟨?_, ?_, ?_, ?_, ?_, ?_⟩ <;> intro x t h <;>
    simp [Door.log_event, Door.reset_short_sample, Door.reset_long_sample,
      PowerAvailability.log_event, PowerAvailability.reset_short_sample,
      PowerAvailability.reset_long_sample,
      Door.validate_timestamp_and_update,
      PowerAvailability.validate_timestamp_and_update, h]

/-- Witness for C7 at concrete out-of-order inputs. -/
theorem out_of_order_rejected_witness :
    (Door.new false ⟨100⟩).log_event (.Opened ⟨50⟩)
      = (Door.new false ⟨100⟩, some .OutOfOrder) ∧
    (Door.new false ⟨100⟩).reset_short_sample ⟨50⟩
      = (Door.new false ⟨100⟩, some .OutOfOrder) ∧
    (Door.new false ⟨100⟩).reset_long_sample ⟨50⟩
      = (Door.new false ⟨100⟩, some .OutOfOrder) ∧
    (PowerAvailability.new false ⟨100⟩).log_event (.On ⟨50⟩)
      = (PowerAvailability.new false ⟨100⟩, some .OutOfOrder) ∧
    (PowerAvailability.new false ⟨100⟩).reset_short_sample ⟨50⟩
      = (PowerAvailability.new false ⟨100⟩, some .OutOfOrder) ∧
    (PowerAvailability.new false ⟨100⟩).reset_long_sample ⟨50⟩
      = (PowerAvailability.new false ⟨100⟩, some .OutOfOrder) :=
  ⟨out_of_order_rejected.1 _ _ (by decide),
    out_of_order_rejected.2.1 _ _ (by decide),
    out_of_order_rejected.2.2.1 _ _ (by decide),
    out_of_order_rejected.2.2.2.1 _ _ (by decide),
    out_of_order_rejected.2.2.2.2.1 _ _ (by decide),
    out_of_order_rejected.2.2.2.2.2 _ _ (by decide)⟩

/-- C10: logging `Opened(t2)` while the door is already open (and `t2` is
in order) succeeds, overwrites `opened` to `t2`, increments both windows'
open counts again, leaves both accumulators untouched, and a later
`Closed(t3)` adds only `t3 - t2` to each accumulator — the elapsed
interval from the earlier `Opened` timestamp to `t2` is silently lost. -/
theorem reopen_overwrites_and_loses_interval (d : Door) (t1 t2 : Timestamp)
    (_hop : d.opened = some t1) (hts : d.last_event_ts.seconds ≤ t2.seconds) :
    (d.log_event (.Opened t2)).2 = none ∧
    (d.log_event (.Opened t2)).1.opened = some t2 ∧
    (d.log_event (.Opened t2)).1.short_open_count = wadd16 d.short_open_count 1 ∧
    (d.log_event (.Opened t2)).1.long_open_count = wadd16 d.long_open_count 1 ∧
    (d.log_event (.Opened t2)).1.short_open_accum = d.short_open_accum ∧
    (d.log_event (.Opened t2)).1.long_open_accum = d.long_open_accum ∧
    (∀ t3 : Timestamp, t2.seconds ≤ t3.seconds → t3.seconds < U32M →
      d.short_open_accum + (t3.seconds - t2.seconds) < U32M →
      d.long_open_accum + (t3.seconds - t2.seconds) < U32M →
      ((d.log_event (.Opened t2)).1.log_event (.Closed t3)).1.short_open_accum =
        d.short_open_accum + (t3.seconds - t2.seconds) ∧
      ((d.log_event (.Opened t2)).1.log_event (.Closed t3)).1.long_open_accum =
        d.long_open_accum + (t3.seconds - t2.seconds)) := by
  have he : d.log_event (.Opened t2) =
      ({ d with
          last_event_ts := t2
          opened := some t2
          short_open_count := wadd16 d.short_open_count 1
          long_open_count := wadd16 d.long_open_count 1 }, none) := by
    simp [Door.log_event, Door.validate_timestamp_and_update, DoorEvent.ts,
      Nat.not_lt.mpr hts]
  refine ⟨by simp [he], by simp [he], by simp [he], by simp [he],
    by simp [he], by simp [he], ?_⟩
  intro t3 h23 h3M hsacc hlacc
  rw [he]
  simp only [Door.log_event, Door.validate_timestamp_and_update, DoorEvent.ts,
    Nat.not_lt.mpr h23, if_neg (Nat.not_lt.mpr h23)]
  simp [wsub32_eq_sub h23 h3M, wadd32_eq_add hsacc, wadd32_eq_add hlacc]

/-- Witness for C10: reopening at `t2 = 200` a door opened at 100, then
closing at `t3 = 500`, credits only `500 - 200 = 300` seconds. -/
theorem reopen_overwrites_and_loses_interval_witness :
    ((Door.new true ⟨100⟩).log_event (.Opened ⟨200⟩)).2 = none ∧
    ((Door.new true ⟨100⟩).log_event (.Opened ⟨200⟩)).1.opened = some ⟨200⟩ ∧
    (((Door.new true ⟨100⟩).log_event (.Opened ⟨200⟩)).1.log_event
        (.Closed ⟨500⟩)).1.short_open_accum = (Door.new true ⟨100⟩).short_open_accum + 300 := by
  have h := reopen_overwrites_and_loses_interval (Door.new true ⟨100⟩) ⟨100⟩ ⟨200⟩
    rfl (by decide)
  exact ⟨h.1, h.2.1,
    (h.2.2.2.2.2.2 ⟨500⟩ (by decide) (by decide) (by decide) (by decide)).1⟩

/-- C9: constructing a `TemperatureAggregator` with an initial vaccine
reading inside the good range `[2, 8]` at time `t0` yields the initial
state `FreezeNoAlarm{cool_start: t0, freeze_start: t0}`; consequently a
first `add_sample` at `now` with `now - t0 ≥ 3600` carrying `vaccine =
None` upgrades the state to `FreezeAlarm` and makes `is_low_alarm()`
return `true`, although every observed vaccine reading was in range. -/
theorem in_range_init_upgrades_to_freeze_alarm (t0 now : Timestamp)
    (amb0 amb1 : Option ℚ) (v : ℚ)
    (hv1 : MIN_GOOD_VACCINE_TEMP ≤ v) (hv2 : v ≤ MAX_GOOD_VACCINE_TEMP)
    (hge : t0.seconds + ALARM_LOW_SECONDS ≤ now.seconds)
    (hnow : now.seconds < U32M) :
    (TemperatureAggregator.new ⟨amb0, some v⟩ t0).status = .FreezeNoAlarm ⟨t0, t0⟩ ∧
    ((TemperatureAggregator.new ⟨amb0, some v⟩ t0).add_sample ⟨amb1, none⟩ now).status
      = .FreezeAlarm ⟨t0, t0⟩ ∧
    ((TemperatureAggregator.new ⟨amb0, some v⟩ t0).add_sample ⟨amb1, none⟩ now).is_low_alarm
      = true := by
  have hnotHot : ¬ v > MAX_GOOD_VACCINE_TEMP := not_lt.mpr hv2
  have hnotCold : ¬ v < MIN_GOOD_VACCINE_TEMP := not_lt.mpr hv1
  have hstat : (TemperatureAggregator.new ⟨amb0, some v⟩ t0).status
      = .FreezeNoAlarm ⟨t0, t0⟩ := by
    simp [TemperatureAggregator.new, hnotHot, hnotCold]
  have ht0now : t0.seconds ≤ now.seconds := by
    have := hge; unfold ALARM_LOW_SECONDS at this; omega
  have hcond : wsub32 now.seconds t0.seconds ≥ ALARM_LOW_SECONDS := by
    rw [wsub32_eq_sub ht0now hnow]; unfold ALARM_LOW_SECONDS at hge ⊢; omega
  have hstat2 : ((TemperatureAggregator.new ⟨amb0, some v⟩ t0).add_sample
      ⟨amb1, none⟩ now).status = .FreezeAlarm ⟨t0, t0⟩ := by
    simp [TemperatureAggregator.add_sample, hstat, hcond]
  exact ⟨hstat, hstat2, by simp [TemperatureAggregator.is_low_alarm, hstat2]⟩

/-- Witness for C9 at `t0 = 0`, vaccine 4 °C, first sample at `now = 3600`
with no vaccine reading. -/
theorem in_range_init_upgrades_to_freeze_alarm_witness :
    (TemperatureAggregator.new ⟨none, some 4⟩ ⟨0⟩).status
      = .FreezeNoAlarm ⟨⟨0⟩, ⟨0⟩⟩ ∧
    ((TemperatureAggregator.new ⟨none, some 4⟩ ⟨0⟩).add_sample
        ⟨none, none⟩ ⟨3600⟩).status = .FreezeAlarm ⟨⟨0⟩, ⟨0⟩⟩ ∧
    ((TemperatureAggregator.new ⟨none, some 4⟩ ⟨0⟩).add_sample
        ⟨none, none⟩ ⟨3600⟩).is_low_alarm = true :=
  in_range_init_upgrades_to_freeze_alarm ⟨0⟩ ⟨3600⟩ none none 4
    (by norm_num [MIN_GOOD_VACCINE_TEMP]) (by norm_num [MAX_GOOD_VACCINE_TEMP])
    (by decide) (by decide)

theorem digitChar_toNat {d : Nat} (h : d < 10) : (digitChar d).toNat = 48 + d := by
  interval_cases d <;> decide

theorem digitChar_isDigit {d : Nat} (h : d < 10) : (digitChar d).isDigit = true := by
  interval_cases d <;> decide

theorem digitChar_ne_plus {d : Nat} (h : d < 10) : digitChar d ≠ '+' := by
  interval_cases d <;> decide

theorem digitChar_ne_upper {d : Nat} (h : d < 10) :
    digitChar d ≠ 'D' ∧ digitChar d ≠ 'T' ∧ digitChar d ≠ 'H' ∧
    digitChar d ≠ 'M' ∧ digitChar d ≠ 'S' := by
  interval_cases d <;> decide

theorem digitChar_eq_zero_iff {d : Nat} (h : d < 10) : digitChar d = '0' ↔ d = 0 := by
  interval_cases d <;> decide

theorem natCharsAux_zero (fuel : Nat) : natCharsAux fuel 0 = [] := by
  cases fuel <;> rfl

theorem natCharsAux_mem {fuel n : Nat} :
    ∀ c ∈ natCharsAux fuel n, ∃ d, d < 10 ∧ c = digitChar d := by
  induction fuel generalizing n with
  | zero => intro c hc; simp [natCharsAux] at hc
  | succ fuel ih =>
    intro c hc
    match n with
    | 0 => simp [natCharsAux] at hc
    | n + 1 =>
      simp only [natCharsAux, List.mem_append, List.mem_singleton] at hc
      rcases hc with hc | hc
      · exact ih c hc
      · exact ⟨(n + 1) % 10, Nat.mod_lt _ (by omega), hc⟩

theorem natCharsAux_head {fuel n : Nat} (h1 : 1 ≤ n) (h2 : n ≤ fuel) :
    ∃ c cs, natCharsAux fuel n = c :: cs ∧ c ≠ '0' ∧
      (∃ d, d < 10 ∧ c = digitChar d) := by
  induction fuel generalizing n with
  | zero => omega
  | succ fuel ih =>
    match n, h1 with
    | n + 1, _ =>
      by_cases hq : (n + 1) / 10 = 0
      · refine ⟨digitChar ((n + 1) % 10), [], ?_, ?_, ?_⟩
        · simp [natCharsAux, hq, natCharsAux_zero]
        · rw [Ne, digitChar_eq_zero_iff (Nat.mod_lt _ (by omega))]
          omega
        · exact ⟨(n + 1) % 10, Nat.mod_lt _ (by omega), rfl⟩
      · obtain ⟨c, cs, hcs, hc0, hcd⟩ := ih (n := (n + 1) / 10) (by omega) (by omega)
        exact ⟨c, cs ++ [digitChar ((n + 1) % 10)], by simp [natCharsAux, hcs], hc0, hcd⟩

theorem natChars_head (n : Nat) :
    ∃ c cs, natChars n = c :: cs ∧ (∃ d, d < 10 ∧ c = digitChar d) ∧
      (c = '0' ↔ n = 0) := by
  by_cases h : n = 0
  · exact ⟨'0', [], by simp [natChars, h], ⟨0, by omega, rfl⟩, by simp [h]⟩
  · obtain ⟨c, cs, hcs, hc0, hcd⟩ := natCharsAux_head (n := n) (by omega) le_rfl
    exact ⟨c, cs, by simp [natChars, h, hcs], hcd, by simp [hc0, h]⟩

theorem natChars_mem {n : Nat} :
    ∀ c ∈ natChars n, ∃ d, d < 10 ∧ c = digitChar d := by
  intro c hc
  by_cases h : n = 0
  · simp [natChars, h] at hc
    exact ⟨0, by omega, hc⟩
  · simp only [natChars, if_neg h] at hc
    exact natCharsAux_mem c hc

theorem foldl_natCharsAux {fuel n : Nat} (h : n ≤ fuel) (acc : Nat) :
    (natCharsAux fuel n).foldl (fun a c => a * 10 + (c.toNat - 48)) acc
      = acc * 10 ^ (natCharsAux fuel n).length + n := by
  induction fuel generalizing n acc with
  | zero =>
    have : n = 0 := by omega
    subst this
    simp [natCharsAux]
  | succ fuel ih =>
    match n with
    | 0 => simp [natCharsAux]
    | n + 1 =>
      have hq : (n + 1) / 10 ≤ fuel := by omega
      simp only [natCharsAux, List.foldl_append, List.foldl_cons, List.foldl_nil,
        List.length_append, List.length_cons, List.length_nil]
      rw [ih hq acc, digitChar_toNat (Nat.mod_lt _ (by omega))]
      have : 48 + (n + 1) % 10 - 48 = (n + 1) % 10 := by omega
      rw [this, pow_succ]
      have hmod := Nat.div_add_mod (n + 1) 10
      ring_nf
      omega

theorem foldl_natChars (n : Nat) :
    (natChars n).foldl (fun a c => a * 10 + (c.toNat - 48)) 0 = n := by
  by_cases h : n = 0
  · simp [natChars, h]
  · simp only [natChars, if_neg h]
    rw [foldl_natCharsAux le_rfl 0]
    simp


theorem parseU32_natChars {n : Nat} (h : n < U32M) : parseU32 (natChars n) = some n := by
  obtain ⟨c, cs, hcs, ⟨d, hd10, hcd⟩, -⟩ := natChars_head n
  have hne : c ≠ '+' := hcd ▸ digitChar_ne_plus hd10
  have hall : (natChars n).all Char.isDigit = true := by
    rw [List.all_eq_true]
    intro x hx
    obtain ⟨e, he10, hxe⟩ := natChars_mem x hx
    exact hxe ▸ digitChar_isDigit he10
  unfold parseU32
  rw [hcs]
  have hmatch : (match c :: cs with
      | '+' :: rest => rest
      | _ => c :: cs) = c :: cs := by
    split
    · rename_i heq
      rw [List.cons.injEq] at heq
      exact absurd heq.1 hne
    · rfl
  rw [hmatch, ← hcs]
  simp only [hcs, List.isEmpty_cons, if_false, Bool.false_eq_true]
  rw [← hcs, hall]
  simp only [if_true]
  rw [foldl_natChars n, if_pos h]

theorem isPrefixOf_append_self (l t : List Char) : l.isPrefixOf (l ++ t) = true := by
  induction l with
  | nil => simp [List.isPrefixOf]
  | cons x xs ih => simp [List.isPrefixOf, ih]

theorem splitOnceL_at_marker (d : Char) (ds xs ys : List Char)
    (h : ∀ c ∈ xs, c ≠ d) :
    splitOnceL (d :: ds) (xs ++ (d :: ds) ++ ys) = some (xs, ys) := by
  induction xs with
  | nil =>
    have hp : (d :: ds).isPrefixOf (d :: (ds ++ ys)) = true := by
      have h2 := isPrefixOf_append_self (d :: ds) ys
      simpa using h2
    rw [show ([] : List Char) ++ (d :: ds) ++ ys = d :: (ds ++ ys) by simp]
    rw [splitOnceL.eq_def]
    simp only [hp, if_true]
    simp [List.drop_left]
  | cons x xs ih =>
    have hx : x ≠ d := h x (by simp)
    have hrest : ∀ c ∈ xs, c ≠ d := fun c hc => h c (by simp [hc])
    have hpre : (d :: ds).isPrefixOf (x :: (xs ++ (d :: ds) ++ ys)) = false := by
      simp only [List.isPrefixOf, Bool.and_eq_false_iff]
      left
      exact beq_eq_false_iff_ne.mpr (Ne.symm hx)
    rw [show (x :: xs) ++ (d :: ds) ++ ys = x :: (xs ++ (d :: ds) ++ ys) by simp]
    rw [splitOnceL.eq_def]
    simp only [hpre, Bool.false_eq_true, if_false]
    rw [ih hrest]

theorem stripSuffixCh_append (c : Char) (xs : List Char) :
    stripSuffixCh c (xs ++ [c]) = some xs := by
  unfold stripSuffixCh
  rw [List.reverse_append]
  simp

theorem stripPrefixCh_cons (c : Char) (rest : List Char) :
    stripPrefixCh c (c :: rest) = some rest := by
  simp [stripPrefixCh]


theorem to_dhms_spec (t : Timestamp) :
    t.seconds = ((t.to_dhms.1 * 24 + t.to_dhms.2.1) * 60 + t.to_dhms.2.2.1) * 60
        + t.to_dhms.2.2.2 ∧
    t.to_dhms.2.1 < 24 ∧ t.to_dhms.2.2.1 < 60 ∧ t.to_dhms.2.2.2 < 60 ∧
    t.to_dhms.1 ≤ t.seconds := by
  unfold Timestamp.to_dhms
  simp only
  omega

theorem natChars_zero : natChars 0 = ['0'] := by simp [natChars]

theorem create_iso_eq (t : Timestamp)
    (hpos : 0 < t.to_dhms.2.1 ∨ 0 < t.to_dhms.2.2.1 ∨ 0 < t.to_dhms.2.2.2) :
    t.create_iso8601_str =
      'P' :: (natChars t.to_dhms.1 ++ ('D' :: 'T' ::
        (natChars t.to_dhms.2.1 ++ ('H' ::
          (natChars t.to_dhms.2.2.1 ++ ('M' ::
            (natChars t.to_dhms.2.2.2 ++ ['S']))))))) := by
  unfold Timestamp.create_iso8601_str
  rcases hdh : t.to_dhms with ⟨d, h, m, sc⟩
  rw [hdh] at hpos
  simp only at hpos ⊢
  rw [if_pos (by omega : h > 0 ∨ m > 0 ∨ sc > 0)]
  by_cases hd : d > 0
  · rw [if_pos hd]
    simp
  · rw [if_neg hd]
    have : d = 0 := by omega
    subst this
    rw [natChars_zero]
    simp

theorem fastpath_false (d h : Nat) (rest : List Char) :
    (['P', '0', 'D', 'T', '0', 'S'].isPrefixOf
      ('P' :: (natChars d ++ ('D' :: 'T' :: (natChars h ++ ('H' :: rest)))))) = false := by
  by_cases hd : d = 0
  · subst hd
    rw [natChars_zero]
    by_cases hh : h = 0
    · subst hh
      rw [natChars_zero]
      simp [List.isPrefixOf]
    · obtain ⟨c, cs, hcs, ⟨e, he, hce⟩, hc0⟩ := natChars_head h
      rw [hcs]
      have : ¬ c = '0' := fun hc => hh (hc0.mp hc)
      simp [List.isPrefixOf, beq_eq_false_iff_ne, Ne, this]
      exact fun hc => absurd hc.symm this
  · obtain ⟨c, cs, hcs, ⟨e, he, hce⟩, hc0⟩ := natChars_head d
    rw [hcs]
    have : ¬ c = '0' := fun hc => hd (hc0.mp hc)
    simp [List.isPrefixOf, beq_eq_false_iff_ne, Ne, this]
    exact fun hc => absurd hc.symm this


/-- C1 (amended): for every `u32` seconds value whose
`(days, hours, minutes, seconds)` decomposition has `days = 0` or a
nonzero hours/minutes/seconds part, `parse_duration(create_iso8601_str)`
succeeds and returns exactly the `to_dhms` tuple.  (Round-trip fails
exactly on nonzero whole-day durations, where the encoder emits
`P{d}DT0S`, which the decoder rejects — see the counterexample.) -/
theorem parse_duration_roundtrip_of_encode (t : Timestamp) (ht : t.seconds < U32M)
    (hnz : t.to_dhms.1 = 0 ∨ t.to_dhms.2.1 ≠ 0 ∨ t.to_dhms.2.2.1 ≠ 0 ∨
      t.to_dhms.2.2.2 ≠ 0) :
    Timestamp.parse_duration t.create_iso8601_str = some t.to_dhms := by
  obtain ⟨hrec, hh24, hm60, hs60, hdle⟩ := to_dhms_spec t
  by_cases hz : t.to_dhms.2.1 = 0 ∧ t.to_dhms.2.2.1 = 0 ∧ t.to_dhms.2.2.2 = 0
  · have hd0 : t.to_dhms.1 = 0 := by
      rcases hnz with h | h | h | h
      · exact h
      all_goals exact absurd (by tauto) h
    have ht0 : t.seconds = 0 := by
      obtain ⟨h1, h2, h3⟩ := hz
      omega
    have htt : t = ⟨0⟩ := by cases t; simp_all
    subst htt
    decide
  · have hpos : 0 < t.to_dhms.2.1 ∨ 0 < t.to_dhms.2.2.1 ∨ 0 < t.to_dhms.2.2.2 := by
      rcases Nat.eq_zero_or_pos t.to_dhms.2.1 with h1 | h1
      · rcases Nat.eq_zero_or_pos t.to_dhms.2.2.1 with h2 | h2
        · rcases Nat.eq_zero_or_pos t.to_dhms.2.2.2 with h3 | h3
          · exact absurd ⟨h1, h2, h3⟩ hz
          · exact Or.inr (Or.inr h3)
        · exact Or.inr (Or.inl h2)
      · exact Or.inl h1
    have hnoD : ∀ c ∈ natChars t.to_dhms.1, c ≠ 'D' := by
      intro c hc
      obtain ⟨e, he, hce⟩ := natChars_mem c hc
      exact hce ▸ (digitChar_ne_upper he).1
    have hnoH : ∀ c ∈ natChars t.to_dhms.2.1, c ≠ 'H' := by
      intro c hc
      obtain ⟨e, he, hce⟩ := natChars_mem c hc
      exact hce ▸ (digitChar_ne_upper he).2.2.1
    have hnoM : ∀ c ∈ natChars t.to_dhms.2.2.1, c ≠ 'M' := by
      intro c hc
      obtain ⟨e, he, hce⟩ := natChars_mem c hc
      exact hce ▸ (digitChar_ne_upper he).2.2.2.1
    have split1 : splitOnceL ['D', 'T'] (natChars t.to_dhms.1 ++ ('D' :: 'T' ::
        (natChars t.to_dhms.2.1 ++ ('H' :: (natChars t.to_dhms.2.2.1 ++ ('M' ::
          (natChars t.to_dhms.2.2.2 ++ ['S']))))))) =
        some (natChars t.to_dhms.1, natChars t.to_dhms.2.1 ++ ('H' ::
          (natChars t.to_dhms.2.2.1 ++ ('M' :: (natChars t.to_dhms.2.2.2 ++ ['S']))))) := by
      have := splitOnceL_at_marker 'D' ['T'] (natChars t.to_dhms.1)
        (natChars t.to_dhms.2.1 ++ ('H' :: (natChars t.to_dhms.2.2.1 ++ ('M' ::
          (natChars t.to_dhms.2.2.2 ++ ['S']))))) hnoD
      simpa [List.append_assoc] using this
    have split2 : splitOnceL ['H'] (natChars t.to_dhms.2.1 ++ ('H' ::
        (natChars t.to_dhms.2.2.1 ++ ('M' :: (natChars t.to_dhms.2.2.2 ++ ['S']))))) =
        some (natChars t.to_dhms.2.1,
          natChars t.to_dhms.2.2.1 ++ ('M' :: (natChars t.to_dhms.2.2.2 ++ ['S']))) := by
      have := splitOnceL_at_marker 'H' [] (natChars t.to_dhms.2.1)
        (natChars t.to_dhms.2.2.1 ++ ('M' :: (natChars t.to_dhms.2.2.2 ++ ['S']))) hnoH
      simpa [List.append_assoc] using this
    have split3 : splitOnceL ['M'] (natChars t.to_dhms.2.2.1 ++ ('M' ::
        (natChars t.to_dhms.2.2.2 ++ ['S']))) =
        some (natChars t.to_dhms.2.2.1, natChars t.to_dhms.2.2.2 ++ ['S']) := by
      have := splitOnceL_at_marker 'M' [] (natChars t.to_dhms.2.2.1)
        (natChars t.to_dhms.2.2.2 ++ ['S']) hnoM
      simpa [List.append_assoc] using this
    rw [create_iso_eq t hpos]
    unfold Timestamp.parse_duration
    rw [fastpath_false]
    simp only [Bool.false_eq_true, if_false, stripPrefixCh_cons, Option.bind_eq_bind,
      Option.some_bind, split1, split2, split3, stripSuffixCh_append,
      parseU32_natChars (lt_of_le_of_lt hdle ht),
      parseU32_natChars (show t.to_dhms.2.1 < U32M by unfold U32M; omega),
      parseU32_natChars (show t.to_dhms.2.2.1 < U32M by unfold U32M; omega),
      parseU32_natChars (show t.to_dhms.2.2.2 < U32M by unfold U32M; omega)]


/-- C1 counterexample: at 86400 seconds (`to_dhms = (1,0,0,0)`) the
encoder produces `"P1DT0S"` and `parse_duration` fails on it, so decode
is not a left inverse of encode on every string encode can produce. -/
theorem whole_day_roundtrip_fails :
    (⟨86400⟩ : Timestamp).to_dhms = (1, 0, 0, 0) ∧
    Timestamp.parse_duration ((⟨86400⟩ : Timestamp).create_iso8601_str) = none := by
  decide

/-- Witness for the amended C1 theorem at 93784 seconds (`P1DT2H3M4S`). -/
theorem parse_duration_roundtrip_of_encode_witness :
    Timestamp.parse_duration ((⟨93784⟩ : Timestamp).create_iso8601_str)
      = some (1, 2, 3, 4) := by
  have h := parse_duration_roundtrip_of_encode ⟨93784⟩ (by decide) (by decide)
  rw [h]
  decide


/-- Helper for C6: running a list of events from any door state whose
open-timestamp and accumulators are consistent with its last accepted
timestamp succeeds and adds exactly the completed-opening sum (the spec's
words) to both accumulators. -/
theorem log_events_spec (events : List DoorEvent) :
    ∀ d : Door,
    List.Chain (fun a b : Timestamp => a.seconds ≤ b.seconds)
      d.last_event_ts (events.map DoorEvent.ts) →
    (∀ e ∈ events, e.ts.seconds < U32M) →
    (∀ o, d.opened = some o → o.seconds ≤ d.last_event_ts.seconds) →
    d.short_open_accum + d.openSpan ≤ d.last_event_ts.seconds →
    d.long_open_accum + d.openSpan ≤ d.last_event_ts.seconds →
    ∃ d', d.log_events events = some d' ∧
      d'.short_open_accum = d.short_open_accum + completedOpenSum d.opened events ∧
      d'.long_open_accum = d.long_open_accum + completedOpenSum d.opened events := by
  induction events with
  | nil =>
    intro d _ _ _ _ _
    exact ⟨d, rfl, by simp [completedOpenSum], by simp [completedOpenSum]⟩
  | cons e es ih =>
    intro d hchain hlt hopen haccS haccL
    rw [List.map_cons, List.chain_cons] at hchain
    obtain ⟨hde, hchain'⟩ := hchain
    have hefit : e.ts.seconds < U32M := hlt e (by simp)
    have hlt' : ∀ x ∈ es, x.ts.seconds < U32M := fun x hx => hlt x (by simp [hx])
    rcases e with t | t
    · -- Opened t
      simp only [DoorEvent.ts] at hde hefit
      have hstep : d.log_event (.Opened t) =
          ({ d with
              last_event_ts := t
              opened := some t
              short_open_count := wadd16 d.short_open_count 1
              long_open_count := wadd16 d.long_open_count 1 }, none) := by
        simp [Door.log_event, Door.validate_timestamp_and_update, DoorEvent.ts,
          Nat.not_lt.mpr hde]
      rw [Door.log_events, hstep]
      obtain ⟨d', hrun, hS, hL⟩ := ih
        { d with
            last_event_ts := t
            opened := some t
            short_open_count := wadd16 d.short_open_count 1
            long_open_count := wadd16 d.long_open_count 1 }
        (by simpa [DoorEvent.ts] using hchain') hlt'
        (fun o2 ho2 => by simp at ho2; subst ho2; exact le_rfl)
        (by simp [Door.openSpan]; omega)
        (by simp [Door.openSpan]; omega)
      refine ⟨d', hrun, ?_, ?_⟩ <;> simp_all [completedOpenSum]
    · -- Closed t
      simp only [DoorEvent.ts] at hde hefit
      rcases ho : d.opened with _ | o
      · have hstep : d.log_event (.Closed t) =
            ({ d with last_event_ts := t }, none) := by
          simp [Door.log_event, Door.validate_timestamp_and_update, DoorEvent.ts,
            Nat.not_lt.mpr hde, ho]
        rw [Door.log_events, hstep]
        obtain ⟨d', hrun, hS, hL⟩ := ih
          { d with last_event_ts := t }
          (by simpa [DoorEvent.ts] using hchain') hlt'
          (fun o2 ho2 => by simp [ho] at ho2)
          (by simp [Door.openSpan, ho] at haccS ⊢; omega)
          (by simp [Door.openSpan, ho] at haccL ⊢; omega)
        refine ⟨d', hrun, ?_, ?_⟩ <;> simp_all [completedOpenSum, ho]
      · have hoLast : o.seconds ≤ d.last_event_ts.seconds := hopen o ho
        have hdur : wsub32 t.seconds o.seconds = t.seconds - o.seconds :=
          wsub32_eq_sub (by omega) hefit
        have hSpan : d.openSpan = d.last_event_ts.seconds - o.seconds := by
          simp [Door.openSpan, ho]
        have hSfit : d.short_open_accum + (t.seconds - o.seconds) < U32M := by omega
        have hLfit : d.long_open_accum + (t.seconds - o.seconds) < U32M := by omega
        have hstep : d.log_event (.Closed t) =
            ({ d with
                last_event_ts := t
                opened := none
                short_open_accum := d.short_open_accum + (t.seconds - o.seconds)
                long_open_accum := d.long_open_accum + (t.seconds - o.seconds)
                short_alarmed := decide (t.seconds - o.seconds ≥ DOOR_ALARM_THRESHOLD)
                long_alarmed := decide (t.seconds - o.seconds ≥ DOOR_ALARM_THRESHOLD) },
              none) := by
          simp [Door.log_event, Door.validate_timestamp_and_update, DoorEvent.ts,
            Nat.not_lt.mpr hde, ho, hdur, wadd32_eq_add hSfit, wadd32_eq_add hLfit]
        rw [Door.log_events, hstep]
        obtain ⟨d', hrun, hS, hL⟩ := ih
          { d with
              last_event_ts := t
              opened := none
              short_open_accum := d.short_open_accum + (t.seconds - o.seconds)
              long_open_accum := d.long_open_accum + (t.seconds - o.seconds)
              short_alarmed := decide (t.seconds - o.seconds ≥ DOOR_ALARM_THRESHOLD)
              long_alarmed := decide (t.seconds - o.seconds ≥ DOOR_ALARM_THRESHOLD) }
          (by simpa [DoorEvent.ts] using hchain') hlt'
          (fun o2 ho2 => by simp at ho2)
          (by simp [Door.openSpan]; omega)
          (by simp [Door.openSpan]; omega)
        refine ⟨d', hrun, ?_, ?_⟩ <;> simp_all [completedOpenSum, ho] <;> omega


/-- C6: for every sequence of door events with non-decreasing timestamps
starting at or after the tracker's construction timestamp, `log_event`
never returns an error, and both windows' `open_accum` equal the sum of
`close_ts - open_ts` over all completed openings (each `Closed` event that
found the door open, paired with the most recent `Opened` timestamp).  In
particular open@1000/close@1200 gives accum 200 and count 1 with no alarm,
and a further open@1500/close@1800 gives accum 500 and count 2. -/
theorem door_never_rejects_and_accum_correct :
    (∀ (open0 : Bool) (t0 : Timestamp) (events : List DoorEvent),
      List.Chain (fun a b : Timestamp => a.seconds ≤ b.seconds) t0
        (events.map DoorEvent.ts) →
      (∀ e ∈ events, e.ts.seconds < U32M) →
      ((Door.new open0 t0).log_events events).map
          (fun d => (d.short_open_accum, d.long_open_accum))
        = some (completedOpenSum (if open0 then some t0 else none) events,
            completedOpenSum (if open0 then some t0 else none) events)) ∧
    ((Door.default.log_events [.Opened ⟨1000⟩, .Closed ⟨1200⟩]).map
        (fun d => (d.short_open_accum, d.long_open_accum, d.short_open_count,
          d.long_open_count, d.is_short_sample_alarmed ⟨1200⟩,
          d.is_long_sample_alarmed ⟨1200⟩))
      = some (200, 200, 1, 1, false, false)) ∧
    ((Door.default.log_events
        [.Opened ⟨1000⟩, .Closed ⟨1200⟩, .Opened ⟨1500⟩, .Closed ⟨1800⟩]).map
        (fun d => (d.short_open_accum, d.long_open_accum, d.short_open_count,
          d.long_open_count))
      = some (500, 500, 2, 2)) := by
  refine ⟨?_, by decide, by decide⟩
  intro open0 t0 events hchain hlt
  have hnew1 : (Door.new open0 t0).last_event_ts = t0 := by simp [Door.new]
  have hnew2 : (Door.new open0 t0).opened = if open0 then some t0 else none := by
    simp [Door.new]
  obtain ⟨d', hrun, hS, hL⟩ := log_events_spec events (Door.new open0 t0)
    (by rw [hnew1]; exact hchain) hlt
    (fun o ho => by
      rw [hnew2] at ho
      rcases open0 with _ | _
      · simp at ho
      · simp at ho; rw [hnew1, ← ho])
    (by
      rcases open0 with _ | _ <;>
        simp [Door.new, Door.openSpan])
    (by
      rcases open0 with _ | _ <;>
        simp [Door.new, Door.openSpan])
  rw [hrun]
  simp only [Option.map_some']
  rw [hS, hL, hnew2]
  simp [Door.new]


/-- Witness for C6 at a concrete two-event sequence. -/
theorem door_never_rejects_and_accum_correct_witness :
    ((Door.new false ⟨0⟩).log_events [.Opened ⟨1000⟩, .Closed ⟨1200⟩]).map
        (fun d => (d.short_open_accum, d.long_open_accum))
      = some (completedOpenSum (if false then some ⟨0⟩ else none)
            [.Opened ⟨1000⟩, .Closed ⟨1200⟩],
          completedOpenSum (if false then some ⟨0⟩ else none)
            [.Opened ⟨1000⟩, .Closed ⟨1200⟩]) :=
  door_never_rejects_and_accum_correct.1 false ⟨0⟩ [.Opened ⟨1000⟩, .Closed ⟨1200⟩]
    (List.Chain.cons (by decide) (List.Chain.cons (by decide) List.Chain.nil))
    (by decide)


set_option maxHeartbeats 1600000 in
/-- Helper for C3: `add_sample` computes every vaccine-channel observable
without reading any ambient-channel field, so two aggregators agreeing on
`vaccineCore` remain in agreement after samples that share the vaccine
reading, whatever their ambient readings. -/
theorem vaccineCore_congr (a1 a2 : TemperatureAggregator) (s1 s2 : TemperatureSample)
    (now : Timestamp) (hv : s1.vaccine = s2.vaccine)
    (h : a1.vaccineCore = a2.vaccineCore) :
    (a1.add_sample s1 now).vaccineCore = (a2.add_sample s2 now).vaccineCore := by
  obtain ⟨st1, ls1, pl1, lat1, lvt1, lats1, lvts1, loas1, hias1, lr1⟩ := a1
  obtain ⟨st2, ls2, pl2, lat2, lvt2, lats2, lvts2, loas2, hias2, lr2⟩ := a2
  obtain ⟨q1, w1, e1, r1, t1, y1, u1, i1, o1, p1⟩ := lr1
  obtain ⟨q2, w2, e2, r2, t2, y2, u2, i2, o2, p2⟩ := lr2
  obtain ⟨sa1, sv1⟩ := s1
  obtain ⟨sa2, sv2⟩ := s2
  simp only [TemperatureAggregator.vaccineCore, Prod.mk.injEq] at h
  obtain ⟨hA, hB, hC, hD, hE, hF, hG, hH, hI, hJ, hK, hL, hM, hN, hO⟩ := h
  simp only at hv
  subst hA hB hC hD hE hF hG hH hI hJ hK hL hM hN hO hv
  rcases lvt1 with _ | pv <;>
  rcases sv1 with _ | cv <;>
  rcases st1 with _ | hst | hst | hst | cts | cts <;>
    simp only [TemperatureAggregator.add_sample, TemperatureAggregator.vaccineCore] <;>
    (try split_ifs) <;>
    (rcases lat1 with _ | pa1 <;> rcases lat2 with _ | pa2 <;>
      rcases sa1 with _ | ca1 <;> rcases sa2 with _ | ca2 <;> rfl)

/-- Helper for C3: the scenario's first sample matches the closed form. -/
theorem scenarioStep_zero :
    ((scenarioState 0).add_sample ⟨none, some (801 / 100)⟩ ⟨900 * 1⟩).vaccineCore
      = (scenarioState 1).vaccineCore := by
  show ((TemperatureAggregator.new ⟨none, some 4⟩ ⟨0⟩).add_sample
      ⟨none, some (801 / 100)⟩ ⟨900⟩).vaccineCore = _
  norm_num [TemperatureAggregator.new, TemperatureAggregator.add_sample,
    TemperatureAggregator.vaccineCore, scenarioState,
    Timestamp.get_last_short_sample_end, Timestamp.get_last_long_sample_end,
    SHORT_SAMPLE_PERIOD, LONG_SAMPLE_PERIOD, TempLongRecord.default,
    wadd32, wsub32, U32M, MAX_GOOD_VACCINE_TEMP, MIN_GOOD_VACCINE_TEMP,
    ALARM_LOW_TEMPERATURE, ALARM_HIGH_SECONDS, ALARM_LOW_SECONDS]

/-- 8.01 °C exceeds the 8.0 °C good-range maximum (helper for C3). -/
theorem q801_gt_max : MAX_GOOD_VACCINE_TEMP < (801 / 100 : ℚ) := by
  norm_num [MAX_GOOD_VACCINE_TEMP]

/-- Helper for C3: the running minimum stays at 4 °C. -/
theorem q801_min4 : min (4 : ℚ) (801 / 100) = 4 :=
  min_eq_left (by norm_num)

/-- Helper for C3: one trapezoid of 8.01 °C extends the integral sum. -/
theorem qsum_step (k : Nat) :
    (4 + 801 / 100) / 2 * 900 + 801 / 100 * ((900 * k : ℕ) : ℚ) +
        (801 / 100 + (801 / 100 : ℚ)) / 2 * ((900 : ℕ) : ℚ)
      = (4 + 801 / 100) / 2 * 900 + 801 / 100 * ((900 * (k + 1) : ℕ) : ℚ) := by
  push_cast
  ring

set_option maxRecDepth 8000 in
/-- Helper for C3: each later scenario sample advances the closed form. -/
theorem scenarioStep_succ (k : Nat) (hk : k + 1 < 44) :
    ((scenarioState (k + 1)).add_sample ⟨none, some (801 / 100)⟩
        ⟨900 * (k + 2)⟩).vaccineCore
      = (scenarioState (k + 2)).vaccineCore := by
  have hlt : 900 * (k + 2) < U32M := by unfold U32M; omega
  have hδ : wsub32 (900 * (k + 2)) (900 * (k + 1)) = 900 := by
    rw [wsub32_eq_sub (by omega) hlt]; omega
  have hup : wsub32 (900 * (k + 2)) 900 = 900 * (k + 1) := by
    rw [wsub32_eq_sub (by omega) hlt]; omega
  have hadd1 : wadd32 (900 * (k + 1)) 900 = 900 * (k + 2) := by
    rw [wadd32_eq_add (by unfold U32M; omega)]; omega
  have hadd2 : wadd32 (900 * k) 900 = 900 * (k + 1) := by
    rw [wadd32_eq_add (by unfold U32M; omega)]; omega
  have hadd0 : wadd32 0 900 = 900 := by
    rw [wadd32_eq_add (by unfold U32M; omega)]
  have hseceq : ¬ (900 * (k + 2) = 900) := by omega
  by_cases h41 : k + 1 < 41
  · by_cases h40 : 40 ≤ k + 1
    · -- the persistence upgrade happens at this sample (k + 1 = 40)
      simp only [scenarioState, TemperatureAggregator.add_sample,
        TemperatureAggregator.vaccineCore, if_pos h41, hδ, hup, hadd1, hadd2,
        ge_iff_le, Option.getD_some, min_self, max_self, q801_min4,
        if_pos q801_gt_max, if_neg hseceq, qsum_step,
        if_pos (show ALARM_HIGH_SECONDS ≤ 900 * (k + 1) from by
          unfold ALARM_HIGH_SECONDS; omega),
        if_neg (show ¬ (42 ≤ k + 1) from by omega),
        if_neg (show ¬ (k + 1 + 1 < 41) from by omega),
        if_pos (show 41 ≤ k + 1 + 1 from by omega),
        if_neg (show ¬ (42 ≤ k + 1 + 1) from by omega)]
    · -- still below the persistence threshold (k + 1 < 40)
      simp only [scenarioState, TemperatureAggregator.add_sample,
        TemperatureAggregator.vaccineCore, if_pos h41, hδ, hup, hadd1, hadd2,
        ge_iff_le, Option.getD_some, min_self, max_self, q801_min4,
        if_pos q801_gt_max, if_neg hseceq, qsum_step,
        if_neg (show ¬ (ALARM_HIGH_SECONDS ≤ 900 * (k + 1)) from by
          unfold ALARM_HIGH_SECONDS; omega),
        if_neg (show ¬ (42 ≤ k + 1) from by omega),
        if_neg (show ¬ (41 ≤ k + 1) from by omega),
        if_pos (show k + 1 + 1 < 41 from by omega),
        if_neg (show ¬ (41 ≤ k + 1 + 1) from by omega),
        if_neg (show ¬ (42 ≤ k + 1 + 1) from by omega)]
  · by_cases h42 : 42 ≤ k + 1
    · -- the alarm has been latched for at least one earlier sample
      have hadd3 : wadd32 (900 * (k + 1) - 36900) 900 = 900 * (k + 2) - 36900 := by
        rw [wadd32_eq_add (by unfold U32M; omega)]; omega
      simp only [scenarioState, TemperatureAggregator.add_sample,
        TemperatureAggregator.vaccineCore, if_neg h41, hδ, hup, hadd1, hadd2,
        hadd3, ge_iff_le, Option.getD_some, min_self, max_self, q801_min4,
        if_pos q801_gt_max, if_neg hseceq, qsum_step,
        if_pos (show ALARM_HIGH_SECONDS ≤ 900 * (k + 1) from by
          unfold ALARM_HIGH_SECONDS; omega),
        if_pos h42, if_pos (show 41 ≤ k + 1 from by omega),
        if_neg (show ¬ (k + 1 + 1 < 41) from by omega),
        if_pos (show 41 ≤ k + 1 + 1 from by omega),
        if_pos (show 42 ≤ k + 1 + 1 from by omega),
        show 900 * (k + 1) - 36900 + 900 = 900 * (k + 1 + 1) - 36900 from by omega]
    · -- the first dwell second accrues at this sample (k + 1 = 41)
      simp only [scenarioState, TemperatureAggregator.add_sample,
        TemperatureAggregator.vaccineCore, if_neg h41, hδ, hup, hadd1, hadd2,
        hadd0, ge_iff_le, Option.getD_some, min_self, max_self, q801_min4,
        if_pos q801_gt_max, if_neg hseceq, qsum_step,
        if_pos (show ALARM_HIGH_SECONDS ≤ 900 * (k + 1) from by
          unfold ALARM_HIGH_SECONDS; omega),
        if_neg h42, if_pos (show 41 ≤ k + 1 from by omega),
        if_neg (show ¬ (k + 1 + 1 < 41) from by omega),
        if_pos (show 41 ≤ k + 1 + 1 from by omega),
        if_pos (show 42 ≤ k + 1 + 1 from by omega),
        show 900 * (k + 1 + 1) - 36900 = 900 from by omega]

/-- Helper for C3: unfolding one step of the scenario fold. -/
theorem scenarioHotRun_succ (amb0 : Option ℚ) (amb : Nat → ℚ) (n : Nat) :
    scenarioHotRun amb0 amb (n + 1) =
      (scenarioHotRun amb0 amb n).add_sample
        ⟨some (amb n), some (801 / 100)⟩ ⟨900 * (n + 1)⟩ := by
  simp [scenarioHotRun, List.range_succ]

/-- Helper for C3: the scenario run agrees with the closed form on every
vaccine-channel observable, for any ambient readings. -/
theorem scenarioHotRun_core (amb0 : Option ℚ) (amb : Nat → ℚ) :
    ∀ k, k ≤ 44 →
      (scenarioHotRun amb0 amb k).vaccineCore = (scenarioState k).vaccineCore := by
  intro k
  induction k with
  | zero =>
    intro _
    show (TemperatureAggregator.new ⟨amb0, some 4⟩ ⟨0⟩).vaccineCore = _
    cases amb0 <;> rfl
  | succ n ih =>
    intro hn
    rw [scenarioHotRun_succ]
    have h2 := vaccineCore_congr (scenarioHotRun amb0 amb n) (scenarioState n)
      ⟨some (amb n), some (801 / 100)⟩ ⟨none, some (801 / 100)⟩ ⟨900 * (n + 1)⟩
      rfl (ih (by omega))
    rw [h2]
    match n, hn with
    | 0, _ => simpa using scenarioStep_zero
    | m + 1, hn => exact scenarioStep_succ m (by omega)

/-- C3: starting from `TemperatureAggregator::new` with vaccine 4.0 °C at
`t = 0`, with `add_sample` called with vaccine 8.01 °C and ambient present
at every multiple of 900 s from 900 through 39600: the state after the
`t = 900` sample is `HotNoAlarm(900)`; `is_high_alarm()` is `true` after
the `k`-th sample exactly when `900 k ≥ 36900` (so the state first becomes
`HotAlarm(900)` at `t = 36900`, the first `now` with `now - 900 ≥ 36000`,
and stays alarmed from then on); and `high_alarm_seconds` after the
`t = 39600` sample equals 2700. -/
theorem scenario_hot_persistence (amb0 : Option ℚ) (amb : Nat → ℚ) :
    (scenarioHotRun amb0 amb 1).status = .HotNoAlarm ⟨900⟩ ∧
    (∀ k, 1 ≤ k → k ≤ 44 →
      (scenarioHotRun amb0 amb k).is_high_alarm = decide (36900 ≤ 900 * k)) ∧
    (scenarioHotRun amb0 amb 41).status = .HotAlarm ⟨900⟩ ∧
    (scenarioHotRun amb0 amb 44).long_record.high_alarm_seconds = 2700 := by
  have hstatus : ∀ k, k ≤ 44 →
      (scenarioHotRun amb0 amb k).status = (scenarioState k).status := by
    intro k hk
    exact congrArg (fun x => x.1) (scenarioHotRun_core amb0 amb k hk)
  have hha : ∀ k, k ≤ 44 →
      (scenarioHotRun amb0 amb k).long_record.high_alarm_seconds
        = (scenarioState k).long_record.high_alarm_seconds := by
    intro k hk
    exact congrArg (fun x => x.2.2.2.2.2.2.2.2.2.2.2.2.2.2)
      (scenarioHotRun_core amb0 amb k hk)
  refine ⟨?_, ?_, ?_, ?_⟩
  · rw [hstatus 1 (by omega)]
    rfl
  · intro k h1 h44
    unfold TemperatureAggregator.is_high_alarm
    rw [hstatus k h44]
    match k, h1 with
    | j + 1, _ =>
      show (match (scenarioState (j + 1)).status with
        | .HotAlarm _ => true
        | _ => false) = decide (36900 ≤ 900 * (j + 1))
      simp only [scenarioState]
      by_cases hj : j + 1 < 41
      · rw [if_pos hj]
        exact (decide_eq_false (by omega)).symm
      · rw [if_neg hj]
        exact (decide_eq_true (by omega)).symm
  · rw [hstatus 41 (by omega)]
    rfl
  · rw [hha 44 (by omega)]
    rfl

/-- Witness for C3 with ambient 25 °C: applies the scenario theorem at the
samples just below and above the persistence boundary. -/
theorem scenario_hot_persistence_witness :
    (scenarioHotRun none (fun _ => 25) 40).is_high_alarm = decide (36900 ≤ 900 * 40) ∧
    (scenarioHotRun none (fun _ => 25) 41).is_high_alarm = decide (36900 ≤ 900 * 41) :=
  ⟨(scenario_hot_persistence none (fun _ => 25)).2.1 40 (by decide) (by decide),
    (scenario_hot_persistence none (fun _ => 25)).2.1 41 (by decide) (by decide)⟩

end StationaryLogger
